import Mathlib

/-!
Verification of the replication-control and semi-sync policy core of the
orchestrator repository (go/inst/instance_topology_dao.go).

The Go source is shallowly embedded as follows.

* Pure decision logic (semi-sync action computation, master-change branch
  selection) is translated directly into Lean functions, statement for
  statement.
* Stateful operations that talk to a live MySQL instance are modelled as
  functions in a state monad `M` over an environment `Env` that scripts the
  results of the external collaborators (`ReadTopologyInstance`,
  `ExecInstance`, `UnresolveHostname`, ...), and that additionally records
  the list of state-changing SQL statements issued (`Stmt`), in order.
  Wall-clock timers inside polling loops are abstracted by exhaustion of the
  read script: a loop whose script runs out behaves like the loop hitting
  its timeout.
* Go `uint` arithmetic is modelled as `Nat` with explicit wrap-around
  (`% 2 ^ 64`) where the source can underflow.
* Go errors are modelled as their message strings (`GoErr`); a Go function
  returning `(*Instance, error)` is modelled as returning
  `Option Instance × Option GoErr`.
* Types and helpers of the repository that live outside the given source
  file (the `Instance` snapshot predicates, `BinlogCoordinates` comparison,
  `PromotionRule`, `StopReplicationMethod`) are modelled from the spec; each
  such definition carries a doc comment starting with `Modelled from the
  spec:`.
-/

/-- Identity of a database instance: `(hostname, port)`. -/
structure InstanceKey where
  Hostname : String
  Port : Nat
deriving DecidableEq, Repr, Inhabited

/-- Modelled from the spec: `InstanceKey` is comparable; `String()` renders
`host:port` (used as the deterministic final tie-break in prioritization).
The real implementation lives outside the given source file. -/
def InstanceKey.String (k : InstanceKey) : String :=
  k.Hostname ++ ":" ++ toString k.Port

/-- Modelled from the spec: pointer-receiver equality check on instance keys;
a `nil` other key is never equal. -/
def InstanceKey.Equals (k : InstanceKey) (other : Option InstanceKey) : Bool :=
  match other with
  | none => false
  | some o => k == o

/-- Modelled from the spec: `PromotionRule` is an ordered enum
("must", "prefer", "neutral", "must not") supporting a `BetterThan` total
order; the real type lives outside the given source file. -/
inductive PromotionRule where
  | MustPromoteRule
  | PreferPromoteRule
  | NeutralPromoteRule
  | MustNotPromoteRule
deriving DecidableEq, Repr, Inhabited

/-- Rank of a promotion rule in the `BetterThan` order (lower is better). -/
def PromotionRule.betterThanOrder : PromotionRule → Nat
  | .MustPromoteRule => 0
  | .PreferPromoteRule => 1
  | .NeutralPromoteRule => 2
  | .MustNotPromoteRule => 3

/-- Modelled from the spec: the `BetterThan` total order on promotion rules. -/
def PromotionRule.BetterThan (p other : PromotionRule) : Bool :=
  p.betterThanOrder < other.betterThanOrder

/-- Modelled from the spec: `BinlogCoordinates` is `(logFile, logPos)` where
ordering compares (file-sequence, position) lexicographically within one log
sequence; we represent the log file directly by its sequence number. The
comparison methods live outside the given source file. -/
structure BinlogCoordinates where
  LogFile : Nat
  LogPos : Nat
deriving DecidableEq, Repr, Inhabited

/-- Modelled from the spec: coordinate equality compares file and position. -/
def BinlogCoordinates.Equals (b other : BinlogCoordinates) : Bool :=
  b.LogFile == other.LogFile && b.LogPos == other.LogPos

/-- Modelled from the spec: lexicographic strict order on (file, position). -/
def BinlogCoordinates.SmallerThan (b other : BinlogCoordinates) : Bool :=
  b.LogFile < other.LogFile || (b.LogFile == other.LogFile && b.LogPos < other.LogPos)

/-- The caller's GTID directive for a master change (source: type
`OperationGTIDHint` with constants `GTIDHintDeny`, `GTIDHintNeutral`,
`GTIDHintForce`). -/
inductive OperationGTIDHint where
  | GTIDHintDeny
  | GTIDHintNeutral
  | GTIDHintForce
deriving DecidableEq, Repr, Inhabited

/-- Modelled from the spec: the `StopReplicationMethod` enum
{None, Nice, Plain}; the type itself lives outside the given source file,
which references the constants `NoStopReplication` and `StopReplicationNice`. -/
inductive StopReplicationMethod where
  | NoStopReplication
  | StopReplicationNormal
  | StopReplicationNice
deriving DecidableEq, Repr, Inhabited

/-- A point-in-time snapshot of one server's replication state. Fields mirror
the `Instance` fields and methods the given source file reads. The
Go-method-derived predicates (`IsReplica`, `ReplicationThreadsExist`,
`ReplicationThreadsStopped`, `ReplicaRunning`, `SQLThreadUpToDate`,
`isMaxScale`, `IsMariaDB`, `NextGTID`) are computed by repository code
outside the given source file; modelled from the spec, they are carried here
as snapshot fields supplied by the external reader. -/
structure Instance where
  Key : InstanceKey
  MasterKey : InstanceKey
  ReplicationIOThreadRuning : Bool
  ReplicationSQLThreadRuning : Bool
  IsReplica : Bool
  ReplicationThreadsExist : Bool
  ReplicationThreadsStopped : Bool
  ReplicaRunning : Bool
  SQLThreadUpToDate : Bool
  isMaxScale : Bool
  IsMariaDB : Bool
  UsingMariaDBGTID : Bool
  UsingOracleGTID : Bool
  SupportsOracleGTID : Bool
  ExecBinlogCoordinates : BinlogCoordinates
  SelfBinlogCoordinates : BinlogCoordinates
  SQLDelay : Nat
  LastSQLError : String
  IsLastCheckValid : Bool
  SemiSyncPriority : Nat
  PromotionRule : PromotionRule
  SemiSyncMasterEnabled : Bool
  SemiSyncReplicaEnabled : Bool
  SemiSyncMasterWaitForReplicaCount : Nat
  SemiSyncMasterClients : Nat
  SemiSyncMasterPluginNewVersion : Bool
  SemiSyncReplicaPluginNewVersion : Bool
  NextGTID : Option String
deriving DecidableEq, Repr, Inhabited

/-- Wrap-around modulus of Go's 64-bit `uint`. -/
def uintMod : Nat := 2 ^ 64

/-- Go unsigned subtraction `a - b` on `uint` values, with wrap-around. -/
def usub (a b : Nat) : Nat :=
  (a % uintMod + uintMod - b % uintMod) % uintMod

/-! ## Semi-Sync Policy Engine: pure decision logic -/

/-- Comparator passed to `sort.Slice` in `classifyAndPrioritizeReplicas`:
higher `SemiSyncPriority` first, then better `PromotionRule`, then ascending
`host:port` string. -/
def semiSyncPriorityLess (a b : Instance) : Bool :=
  if a.SemiSyncPriority != b.SemiSyncPriority then
    decide (a.SemiSyncPriority > b.SemiSyncPriority)
  else if a.PromotionRule != b.PromotionRule then
    a.PromotionRule.BetterThan b.PromotionRule
  else
    compare a.Key.String b.Key.String == Ordering.lt

/-- Classification pass of `classifyAndPrioritizeReplicas`: partition replicas
into (possible semi-sync, always-async, excluded), preserving input order. -/
def classifyLoop (includeNonReplicatingInstance : Option InstanceKey) :
    List Instance → List Instance × List Instance × List Instance
  | [] => ([], [], [])
  | replica :: rest =>
    let (p, a, e) := classifyLoop includeNonReplicatingInstance rest
    let isReplicating := replica.Key.Equals includeNonReplicatingInstance || replica.ReplicaRunning
    if !replica.IsLastCheckValid || !isReplicating then (p, a, replica :: e)
    else if replica.SemiSyncPriority == 0 then (p, replica :: a, e)
    else (replica :: p, a, e)

/-- `classifyAndPrioritizeReplicas`: classification followed by the priority
sort. Go's `sort.Slice` is an unstable sort; we model it with `mergeSort`
under the non-strict order induced by the source's less-function. -/
def classifyAndPrioritizeReplicas (replicas : List Instance)
    (includeNonReplicatingInstance : Option InstanceKey) :
    List Instance × List Instance × List Instance :=
  let (p, a, e) := classifyLoop includeNonReplicatingInstance replicas
  (List.mergeSort p (fun x y => !(semiSyncPriorityLess y x)), a, e)

/-- Loop body of `determineSemiSyncReplicaActionsForEnoughTopology`: walk the
candidates; a disabled candidate gets an enable action and bumps the
newly-enabled counter; after each candidate the loop breaks once the counter
equals the threshold. -/
def enoughLoopGo (threshold : Nat) : Nat → List Instance → List (Instance × Bool)
  | _, [] => []
  | enabled, replica :: rest =>
    if !replica.SemiSyncReplicaEnabled then
      if enabled + 1 == threshold then [(replica, true)]
      else (replica, true) :: enoughLoopGo threshold (enabled + 1) rest
    else
      if enabled == threshold then []
      else enoughLoopGo threshold enabled rest

/-- `determineSemiSyncReplicaActionsForEnoughTopology`: enable actions until
the newly-enabled count reaches `SemiSyncMasterWaitForReplicaCount -
SemiSyncMasterClients` (Go `uint` subtraction, which can wrap). The Go map of
actions is modelled as an association list in emission order (each candidate
appears at most once). -/
def determineSemiSyncReplicaActionsForEnoughTopology (masterInstance : Instance)
    (possibleSemiSyncReplicas : List Instance) : List (Instance × Bool) :=
  enoughLoopGo
    (usub masterInstance.SemiSyncMasterWaitForReplicaCount masterInstance.SemiSyncMasterClients)
    0 possibleSemiSyncReplicas

/-- Candidate loop of `determineSemiSyncReplicaActionsForExactTopology`:
candidate at index `i` should be enabled iff `i < n`; an action is emitted
when the current flag differs from that desired state. -/
def exactLoopGo (n : Nat) : Nat → List Instance → List (Instance × Bool)
  | _, [] => []
  | i, replica :: rest =>
    let isSemiSyncEnabled := replica.SemiSyncReplicaEnabled
    let shouldSemiSyncBeEnabled := decide (i < n)
    if shouldSemiSyncBeEnabled && !isSemiSyncEnabled then
      (replica, true) :: exactLoopGo n (i + 1) rest
    else if !shouldSemiSyncBeEnabled && isSemiSyncEnabled then
      (replica, false) :: exactLoopGo n (i + 1) rest
    else
      exactLoopGo n (i + 1) rest

/-- Always-async pass of `determineSemiSyncReplicaActionsForExactTopology`:
any always-async replica whose flag is currently on gets a disable action. -/
def asyncDisableActions (asyncReplicas : List Instance) : List (Instance × Bool) :=
  asyncReplicas.filterMap fun replica =>
    if replica.SemiSyncReplicaEnabled then some (replica, false) else none

/-- `determineSemiSyncReplicaActionsForExactTopology`. -/
def determineSemiSyncReplicaActionsForExactTopology (masterInstance : Instance)
    (possibleSemiSyncReplicas asyncReplicas : List Instance) : List (Instance × Bool) :=
  exactLoopGo masterInstance.SemiSyncMasterWaitForReplicaCount 0 possibleSemiSyncReplicas
    ++ asyncDisableActions asyncReplicas

/-- `determineSemiSyncReplicaActions`: mode dispatch. -/
def determineSemiSyncReplicaActions (masterInstance : Instance)
    (possibleSemiSyncReplicas asyncReplicas : List Instance)
    (exactReplicaTopology : Bool) : List (Instance × Bool) :=
  if exactReplicaTopology then
    determineSemiSyncReplicaActionsForExactTopology masterInstance possibleSemiSyncReplicas asyncReplicas
  else
    determineSemiSyncReplicaActionsForEnoughTopology masterInstance possibleSemiSyncReplicas

/-! ## Concrete instances used in examples, witnesses and counterexamples -/

/-- A default snapshot with everything off; concrete scenarios override
individual fields. -/
def instDefault : Instance where
  Key := ⟨"replica", 3306⟩
  MasterKey := ⟨"master", 3306⟩
  ReplicationIOThreadRuning := false
  ReplicationSQLThreadRuning := false
  IsReplica := true
  ReplicationThreadsExist := true
  ReplicationThreadsStopped := true
  ReplicaRunning := false
  SQLThreadUpToDate := false
  isMaxScale := false
  IsMariaDB := false
  UsingMariaDBGTID := false
  UsingOracleGTID := false
  SupportsOracleGTID := false
  ExecBinlogCoordinates := ⟨5, 100⟩
  SelfBinlogCoordinates := ⟨5, 100⟩
  SQLDelay := 0
  LastSQLError := ""
  IsLastCheckValid := true
  SemiSyncPriority := 0
  PromotionRule := .NeutralPromoteRule
  SemiSyncMasterEnabled := false
  SemiSyncReplicaEnabled := false
  SemiSyncMasterWaitForReplicaCount := 0
  SemiSyncMasterClients := 0
  SemiSyncMasterPluginNewVersion := false
  SemiSyncReplicaPluginNewVersion := false
  NextGTID := none

/-- Master with wait-for-count 3 and one connected semi-sync client. -/
def mC3 : Instance :=
  { instDefault with SemiSyncMasterWaitForReplicaCount := 3, SemiSyncMasterClients := 1 }

/-- First disabled candidate, in priority order. -/
def rC3a : Instance := { instDefault with Key := ⟨"r1", 3306⟩, SemiSyncPriority := 3 }

/-- Second disabled candidate. -/
def rC3b : Instance := { instDefault with Key := ⟨"r2", 3306⟩, SemiSyncPriority := 2 }

/-- Third disabled candidate. -/
def rC3c : Instance := { instDefault with Key := ⟨"r3", 3306⟩, SemiSyncPriority := 1 }

/-- Master with wait-for-count 2 and 3 connected semi-sync clients (the
underflow regime of claim C4). -/
def mC4 : Instance :=
  { instDefault with SemiSyncMasterWaitForReplicaCount := 2, SemiSyncMasterClients := 3 }

/-- A single disabled candidate for the C4 scenario. -/
def rC4 : Instance := { instDefault with Key := ⟨"c4", 3306⟩, SemiSyncPriority := 1 }

/-- Master with wait-for-count 2 for the exact-topology scenario. -/
def mC5 : Instance := { instDefault with SemiSyncMasterWaitForReplicaCount := 2 }

/-- Exact-topology candidate R1, currently enabled. -/
def rC5a : Instance :=
  { instDefault with Key := ⟨"R1", 3306⟩, SemiSyncPriority := 3, SemiSyncReplicaEnabled := true }

/-- Exact-topology candidate R2, currently disabled. -/
def rC5b : Instance :=
  { instDefault with Key := ⟨"R2", 3306⟩, SemiSyncPriority := 2 }

/-- Exact-topology candidate R3, currently enabled. -/
def rC5c : Instance :=
  { instDefault with Key := ⟨"R3", 3306⟩, SemiSyncPriority := 1, SemiSyncReplicaEnabled := true }

/-- An always-async replica whose semi-sync flag is currently on. -/
def aC5 : Instance :=
  { instDefault with Key := ⟨"A1", 3306⟩, SemiSyncPriority := 0, SemiSyncReplicaEnabled := true }

/-! ## Helper lemmas about the enough-topology loop -/

/-- Every action the enough-topology loop emits is an enable. -/
theorem enoughLoopGo_all_true (threshold : Nat) :
    ∀ (replicas : List Instance) (enabled : Nat) (p : Instance × Bool),
      p ∈ enoughLoopGo threshold enabled replicas → p.2 = true := by
  intro replicas
  induction replicas with
  | nil => intro enabled p h; simp [enoughLoopGo] at h
  | cons r rest ih =>
    intro enabled p h
    simp only [enoughLoopGo] at h
    split at h
    · split at h
      · rw [List.mem_singleton.mp h]
      · rcases List.mem_cons.mp h with h1 | h1
        · rw [h1]
        · exact ih _ p h1
    · split at h
      · simp at h
      · exact ih _ p h

/-- While the newly-enabled counter is strictly below the threshold, the loop
enables exactly the first `threshold - enabled` disabled candidates. -/
theorem enoughLoopGo_eq_take (threshold : Nat) :
    ∀ (replicas : List Instance) (enabled : Nat), enabled < threshold →
      enoughLoopGo threshold enabled replicas =
        ((replicas.filter (fun r => !r.SemiSyncReplicaEnabled)).take (threshold - enabled)).map
          (fun r => (r, true)) := by
  intro replicas
  induction replicas with
  | nil => intro enabled _; simp [enoughLoopGo]
  | cons r rest ih =>
    intro enabled h
    rcases Bool.eq_false_or_eq_true r.SemiSyncReplicaEnabled with hr | hr
    case inl =>
      rw [show enoughLoopGo threshold enabled (r :: rest)
          = enoughLoopGo threshold enabled rest from by
        simp [enoughLoopGo, hr, Nat.ne_of_lt h]]
      rw [ih enabled h]
      simp [List.filter_cons, hr]
    case inr =>
      by_cases hstop : enabled + 1 = threshold
      · rw [show enoughLoopGo threshold enabled (r :: rest) = [(r, true)] from by
          simp [enoughLoopGo, hr, hstop]]
        have ht : threshold - enabled = 1 := by omega
        simp [List.filter_cons, hr, ht]
      · rw [show enoughLoopGo threshold enabled (r :: rest)
            = (r, true) :: enoughLoopGo threshold (enabled + 1) rest from by
          simp [enoughLoopGo, hr, hstop]]
        rw [ih (enabled + 1) (by omega)]
        have ht : threshold - enabled = (threshold - (enabled + 1)) + 1 := by omega
        simp [List.filter_cons, hr, ht]

/-- With threshold 0 and every candidate disabled, the loop enables all of
them: the break test `enabled == 0` is only reached after a candidate that
was already enabled, and the counter moves past 0 at the first candidate. -/
theorem enoughLoopGo_zero_all_disabled :
    ∀ (replicas : List Instance), (∀ r ∈ replicas, r.SemiSyncReplicaEnabled = false) →
      ∀ enabled, enoughLoopGo 0 enabled replicas = replicas.map (fun r => (r, true)) := by
  intro replicas
  induction replicas with
  | nil => intro _ enabled; simp [enoughLoopGo]
  | cons r rest ih =>
    intro h enabled
    have hr : r.SemiSyncReplicaEnabled = false := h r (List.mem_cons_self r rest)
    simp only [enoughLoopGo]
    rw [if_pos (by simp [hr])]
    rw [if_neg (by simp)]
    rw [ih (fun x hx => h x (List.mem_cons_of_mem r hx)) (enabled + 1)]
    simp

/-! ## C3 / C4 / C5: semi-sync action determination -/

/-- C3: in enough-topology mode, `determineSemiSyncReplicaActionsForEnoughTopology`
never emits a disable action; while the threshold (wait-for-count minus
connected clients, Go uint subtraction) is at least 1 it enables exactly the
first `threshold` not-yet-enabled candidates in priority order; and in the
concrete scenario wait-for-count = 3, connected clients = 1 with three
disabled candidates, exactly the first two candidates get enable actions and
the third gets none. -/
theorem C3_enough_topology_actions :
    (∀ (m : Instance) (possible : List Instance) (p : Instance × Bool),
        p ∈ determineSemiSyncReplicaActionsForEnoughTopology m possible → p.2 = true)
    ∧ (∀ (m : Instance) (possible : List Instance),
        1 ≤ usub m.SemiSyncMasterWaitForReplicaCount m.SemiSyncMasterClients →
        determineSemiSyncReplicaActionsForEnoughTopology m possible =
          ((possible.filter (fun r => !r.SemiSyncReplicaEnabled)).take
            (usub m.SemiSyncMasterWaitForReplicaCount m.SemiSyncMasterClients)).map
            (fun r => (r, true)))
    ∧ determineSemiSyncReplicaActionsForEnoughTopology mC3 [rC3a, rC3b, rC3c]
        = [(rC3a, true), (rC3b, true)] := by
  refine ⟨?_, ?_, ?_⟩
  · intro m possible p h
    exact enoughLoopGo_all_true _ possible 0 p h
  · intro m possible h
    unfold determineSemiSyncReplicaActionsForEnoughTopology
    rw [enoughLoopGo_eq_take _ possible 0 (by omega), Nat.sub_zero]
  · rfl

/-- C3 witness: the universally quantified conjuncts of
`C3_enough_topology_actions` applied at the concrete C3 scenario. -/
theorem C3_enough_topology_actions_witness :
    ((rC3a, true).2 = true)
    ∧ determineSemiSyncReplicaActionsForEnoughTopology mC3 [rC3a, rC3b, rC3c]
        = ((([rC3a, rC3b, rC3c].filter (fun r => !r.SemiSyncReplicaEnabled)).take
            (usub mC3.SemiSyncMasterWaitForReplicaCount mC3.SemiSyncMasterClients)).map
            (fun r => (r, true))) := by
  constructor
  · exact C3_enough_topology_actions.1 mC3 [rC3a, rC3b, rC3c] (rC3a, true) (by decide)
  · exact C3_enough_topology_actions.2.1 mC3 [rC3a, rC3b, rC3c] (by decide)

/-- C4 counterexample: with wait-for-count 2 and 3 connected clients (clients
exceed the wait count), the claim says zero enable actions are produced; the
code instead enables the disabled candidate, because the unsigned threshold
wraps around. -/
theorem C4_counterexample :
    determineSemiSyncReplicaActionsForEnoughTopology mC4 [rC4] = [(rC4, true)]
    ∧ determineSemiSyncReplicaActionsForEnoughTopology mC4 [rC4] ≠ [] := by
  constructor
  · rfl
  · intro h
    simp [determineSemiSyncReplicaActionsForEnoughTopology] at h
    rw [show usub mC4.SemiSyncMasterWaitForReplicaCount mC4.SemiSyncMasterClients
          = uintMod - 1 from by decide] at h
    revert h
    decide

/-- C4 amended: when connected clients exceed the wait-for-count, the unsigned
threshold `wait - clients` wraps around to a huge value; as long as there are
fewer candidates than that wrapped threshold, every disabled candidate
receives an enable action. When clients equal the wait-for-count the
threshold is 0, but the loop checks it only after processing each candidate,
so when every candidate is disabled all of them are enabled. In neither case
does the function produce zero enable actions whenever a disabled candidate
is present. -/
theorem C4_enough_topology_underflow :
    (∀ (m : Instance) (possible : List Instance),
        m.SemiSyncMasterWaitForReplicaCount % uintMod < m.SemiSyncMasterClients % uintMod →
        possible.length < usub m.SemiSyncMasterWaitForReplicaCount m.SemiSyncMasterClients →
        determineSemiSyncReplicaActionsForEnoughTopology m possible =
          (possible.filter (fun r => !r.SemiSyncReplicaEnabled)).map (fun r => (r, true)))
    ∧ (∀ (m : Instance) (possible : List Instance),
        m.SemiSyncMasterWaitForReplicaCount % uintMod = m.SemiSyncMasterClients % uintMod →
        (∀ r ∈ possible, r.SemiSyncReplicaEnabled = false) →
        determineSemiSyncReplicaActionsForEnoughTopology m possible =
          possible.map (fun r => (r, true))) := by
  constructor
  · intro m possible hlt hlen
    have hpos : 1 ≤ usub m.SemiSyncMasterWaitForReplicaCount m.SemiSyncMasterClients := by
      omega
    unfold determineSemiSyncReplicaActionsForEnoughTopology
    rw [enoughLoopGo_eq_take _ possible 0 (by omega)]
    rw [Nat.sub_zero]
    rw [List.take_of_length_le
      (le_trans (List.length_filter_le _ _) (Nat.le_of_lt hlen))]
  · intro m possible heq hall
    have hz : usub m.SemiSyncMasterWaitForReplicaCount m.SemiSyncMasterClients = 0 := by
      unfold usub
      rw [heq, Nat.add_sub_cancel_left, Nat.mod_self]
    unfold determineSemiSyncReplicaActionsForEnoughTopology
    rw [hz]
    exact enoughLoopGo_zero_all_disabled possible hall 0

/-- C4 amended witness: both conjuncts of `C4_enough_topology_underflow`
applied at concrete inputs ((wait 2, clients 3) and (wait 2, clients 2)). -/
theorem C4_enough_topology_underflow_witness :
    determineSemiSyncReplicaActionsForEnoughTopology mC4 [rC4]
        = ([rC4].filter (fun r => !r.SemiSyncReplicaEnabled)).map (fun r => (r, true))
    ∧ determineSemiSyncReplicaActionsForEnoughTopology
        { instDefault with SemiSyncMasterWaitForReplicaCount := 2, SemiSyncMasterClients := 2 }
        [rC4] = [rC4].map (fun r => (r, true)) := by
  constructor
  · refine C4_enough_topology_underflow.1 mC4 [rC4] (by decide) ?_
    rw [show usub mC4.SemiSyncMasterWaitForReplicaCount mC4.SemiSyncMasterClients
          = uintMod - 1 from by decide]
    decide
  · exact C4_enough_topology_underflow.2
      { instDefault with SemiSyncMasterWaitForReplicaCount := 2, SemiSyncMasterClients := 2 }
      [rC4] (by decide) (by decide)

/-- The candidate loop of exact-topology mode emits an action for the
candidate at position `i` exactly when the desired state `i < n` differs from
its current flag, and the action's value is the desired state. -/
theorem exactLoopGo_eq_spec (n : Nat) :
    ∀ (replicas : List Instance) (i : Nat),
      exactLoopGo n i replicas =
        (List.enumFrom i replicas).filterMap (fun p =>
          if decide (p.1 < n) != p.2.SemiSyncReplicaEnabled
          then some (p.2, decide (p.1 < n)) else none) := by
  intro replicas
  induction replicas with
  | nil => intro i; simp [exactLoopGo]
  | cons r rest ih =>
    intro i
    simp only [exactLoopGo, List.enumFrom, List.filterMap_cons]
    by_cases hlt : i < n
    · by_cases hr : r.SemiSyncReplicaEnabled
      · rw [if_neg (by simp [hlt, hr]), if_neg (by simp [hlt, hr]), if_neg (by simp [hlt, hr])]
        exact ih (i + 1)
      · rw [if_pos (by simp [hlt, hr]), if_pos (by simp [hlt, hr])]
        rw [ih (i + 1)]
        simp [hlt]
    · by_cases hr : r.SemiSyncReplicaEnabled
      · rw [if_neg (by simp [hlt]), if_pos (by simp [hlt, hr]), if_pos (by simp [hlt, hr])]
        rw [ih (i + 1)]
        simp [hlt]
      · rw [if_neg (by simp [hlt, hr]), if_neg (by simp [hlt, hr]), if_neg (by simp [hlt, hr])]
        exact ih (i + 1)

/-- The always-async pass disables exactly the always-async replicas whose
flag is currently on. -/
theorem asyncDisableActions_eq_filter (asyncReplicas : List Instance) :
    asyncDisableActions asyncReplicas =
      (asyncReplicas.filter (fun r => r.SemiSyncReplicaEnabled)).map (fun r => (r, false)) := by
  induction asyncReplicas with
  | nil => rfl
  | cons r rest ih =>
    by_cases hr : r.SemiSyncReplicaEnabled
    · simp [asyncDisableActions, List.filter_cons, hr] at ih ⊢
      exact ih
    · simp [asyncDisableActions, List.filter_cons, hr] at ih ⊢
      exact ih

/-- C5: in exact-topology mode the desired state of the candidate at priority
position `i` is `i < wait-for-count`, the desired state of every always-async
replica is disabled, and an action (with value = desired state) is emitted
exactly when a replica's current flag differs from its desired state. In the
concrete scenario wait-for-count = 2, candidates [R1 enabled, R2 disabled,
R3 enabled]: actions are exactly {R2: enable, R3: disable}; an always-async
replica with the flag on gets a disable action. -/
theorem C5_exact_topology_actions :
    (∀ (m : Instance) (possible async : List Instance),
        determineSemiSyncReplicaActionsForExactTopology m possible async =
          ((List.enumFrom 0 possible).filterMap (fun p =>
            if decide (p.1 < m.SemiSyncMasterWaitForReplicaCount) != p.2.SemiSyncReplicaEnabled
            then some (p.2, decide (p.1 < m.SemiSyncMasterWaitForReplicaCount)) else none))
          ++ ((async.filter (fun r => r.SemiSyncReplicaEnabled)).map (fun r => (r, false))))
    ∧ determineSemiSyncReplicaActionsForExactTopology mC5 [rC5a, rC5b, rC5c] []
        = [(rC5b, true), (rC5c, false)]
    ∧ determineSemiSyncReplicaActionsForExactTopology mC5 [] [aC5] = [(aC5, false)] := by
  refine ⟨?_, by rfl, by rfl⟩
  intro m possible async
  unfold determineSemiSyncReplicaActionsForExactTopology
  rw [exactLoopGo_eq_spec _ possible 0, asyncDisableActions_eq_filter]

/-! ## Statements issued against an instance -/

/-- The state-changing SQL statements the given source file can issue against
an instance, abstracted from the version-specific SQL text produced by the
`QSP` dialect provider; arguments carry the bind parameters. -/
inductive Stmt where
  | stop_slave_io_thread
  | start_slave_io_thread
  | stop_slave_sql_thread
  | start_slave_sql_thread
  | stop_slave
  | start_slave
  | start_slave_until_master_log (logFile logPos : Nat)
  | set_semi_sync_master (newVersion enable : Bool)
  | set_semi_sync_replica (newVersion enable : Bool)
  | change_master_to_master_host_port (hostname : String) (port : Nat)
  | change_master_to_master_host_port_log_gtid_no (hostname : String) (port : Nat) (logFile logPos : Nat)
  | change_master_to_mariadb_use_gtid (gtidHint : String) (hostname : String) (port : Nat)
  | change_master_to_master_host_port_log_autoposition_no (hostname : String) (port : Nat) (logFile logPos : Nat)
  | change_master_to_master_host_port_autoposition_yes (hostname : String) (port : Nat)
  | change_master_to_master_host_port_log (hostname : String) (port : Nat) (logFile logPos : Nat)
  | change_master_to_master_host
  | change_master_to_master_delay (seconds : Int)
  | set_sql_slave_skip_counter
  | set_gtid_next (gtid : String)
  | empty_commit
  | set_gtid_next_automatic
  | reset_slave
  | reset_slave_50603_all
  | reset_master
  | set_read_only (readOnly : Bool)
  | set_super_read_only (readOnly : Bool)
deriving DecidableEq, Repr

/-- Branch selection of `ChangeMasterTo` (the six-way GTID/dialect decision
plus the default), returning the selected statement and the `changedViaGTID`
flag, exactly as the if/else chain in the source. -/
def changeMasterSelectStmt (inst : Instance) (changeToMasterKey : InstanceKey)
    (masterBinlogCoordinates : BinlogCoordinates) (gtidHint : OperationGTIDHint) :
    Stmt × Bool :=
  if inst.UsingMariaDBGTID && gtidHint != .GTIDHintDeny then
    (.change_master_to_master_host_port changeToMasterKey.Hostname changeToMasterKey.Port, true)
  else if inst.UsingMariaDBGTID && gtidHint == .GTIDHintDeny then
    (.change_master_to_master_host_port_log_gtid_no changeToMasterKey.Hostname
      changeToMasterKey.Port masterBinlogCoordinates.LogFile masterBinlogCoordinates.LogPos, false)
  else if inst.IsMariaDB && gtidHint == .GTIDHintForce then
    let mariadbGTIDHint := if !inst.ReplicationThreadsExist then "current_pos" else "slave_pos"
    (.change_master_to_mariadb_use_gtid mariadbGTIDHint changeToMasterKey.Hostname
      changeToMasterKey.Port, true)
  else if inst.UsingOracleGTID && gtidHint != .GTIDHintDeny then
    (.change_master_to_master_host_port changeToMasterKey.Hostname changeToMasterKey.Port, true)
  else if inst.UsingOracleGTID && gtidHint == .GTIDHintDeny then
    (.change_master_to_master_host_port_log_autoposition_no changeToMasterKey.Hostname
      changeToMasterKey.Port masterBinlogCoordinates.LogFile masterBinlogCoordinates.LogPos, false)
  else if inst.SupportsOracleGTID && gtidHint == .GTIDHintForce then
    (.change_master_to_master_host_port_autoposition_yes changeToMasterKey.Hostname
      changeToMasterKey.Port, true)
  else
    (.change_master_to_master_host_port_log changeToMasterKey.Hostname changeToMasterKey.Port
      masterBinlogCoordinates.LogFile masterBinlogCoordinates.LogPos, false)

/-- C2: the `ChangeMasterTo` statement variant is selected by the
priority-ordered decision over (GTID dialect, currently-using-GTID, hint,
existing-thread state): a MariaDB-GTID instance with hint Deny gets the
explicit file/position statement with GTID off; an Oracle-GTID-capable
instance not currently using GTID with hint Force gets the host/port
statement with autoposition on; a MariaDB instance not GTID-replicating with
hint Force gets `master_use_gtid` = `current_pos` when it has no replication
threads configured, and `slave_pos` otherwise. -/
theorem C2_change_master_branch_selection (inst : Instance) (k : InstanceKey)
    (c : BinlogCoordinates) :
    (inst.UsingMariaDBGTID = true →
      changeMasterSelectStmt inst k c .GTIDHintDeny =
        (.change_master_to_master_host_port_log_gtid_no k.Hostname k.Port c.LogFile c.LogPos,
          false))
    ∧ (inst.UsingMariaDBGTID = false → inst.IsMariaDB = false → inst.UsingOracleGTID = false →
        inst.SupportsOracleGTID = true →
        changeMasterSelectStmt inst k c .GTIDHintForce =
          (.change_master_to_master_host_port_autoposition_yes k.Hostname k.Port, true))
    ∧ (inst.UsingMariaDBGTID = false → inst.IsMariaDB = true →
        changeMasterSelectStmt inst k c .GTIDHintForce =
          (.change_master_to_mariadb_use_gtid
            (if inst.ReplicationThreadsExist then "slave_pos" else "current_pos")
            k.Hostname k.Port, true)) := by
  refine ⟨?_, ?_, ?_⟩
  · intro h1
    simp [changeMasterSelectStmt, h1]
  · intro h1 h2 h3 h4
    simp [changeMasterSelectStmt, h1, h2, h3, h4]
  · intro h1 h2
    rcases Bool.eq_false_or_eq_true inst.ReplicationThreadsExist with ht | ht <;>
      simp [changeMasterSelectStmt, h1, h2, ht]

/-- Concrete MariaDB instance replicating with MariaDB GTID. -/
def instC2a : Instance :=
  { instDefault with IsMariaDB := true, UsingMariaDBGTID := true }

/-- Concrete Oracle-GTID-capable instance not currently using GTID. -/
def instC2b : Instance :=
  { instDefault with SupportsOracleGTID := true }

/-- Concrete MariaDB instance not GTID-replicating and with no replication
threads configured. -/
def instC2c : Instance :=
  { instDefault with IsMariaDB := true, ReplicationThreadsExist := false }

/-- C2 witness: the three conjuncts of `C2_change_master_branch_selection`
applied at concrete instances. -/
theorem C2_change_master_branch_selection_witness :
    changeMasterSelectStmt instC2a ⟨"m2", 3307⟩ ⟨7, 120⟩ .GTIDHintDeny =
      (.change_master_to_master_host_port_log_gtid_no "m2" 3307 7 120, false)
    ∧ changeMasterSelectStmt instC2b ⟨"m2", 3307⟩ ⟨7, 120⟩ .GTIDHintForce =
      (.change_master_to_master_host_port_autoposition_yes "m2" 3307, true)
    ∧ changeMasterSelectStmt instC2c ⟨"m2", 3307⟩ ⟨7, 120⟩ .GTIDHintForce =
      (.change_master_to_mariadb_use_gtid "current_pos" "m2" 3307, true) :=
  ⟨(C2_change_master_branch_selection instC2a ⟨"m2", 3307⟩ ⟨7, 120⟩).1 (by decide),
   (C2_change_master_branch_selection instC2b ⟨"m2", 3307⟩ ⟨7, 120⟩).2.1 (by decide) (by decide)
     (by decide) (by decide),
   (C2_change_master_branch_selection instC2c ⟨"m2", 3307⟩ ⟨7, 120⟩).2.2 (by decide) (by decide)⟩

/-! ## Scripted environment and operation monad -/

/-- Go errors are modelled by their message strings. -/
abbrev GoErr := String

/-- Result shape of a Go `(*Instance, error)` return. -/
abbrev GoRes := Option Instance × Option GoErr

/-- The configuration fields the given source file reads: the global dry-run
flag `RuntimeCLIFlags.Noop` and the `Config` switches. -/
structure Config where
  Noop : Bool
  EnforceExactSemiSyncReplicas : Bool
  RecoverLockedSemiSyncMaster : Bool
  UseSuperReadOnly : Bool
deriving DecidableEq, Repr, Inhabited

/-- Scripts for the external collaborators: successive results of
single-instance reads, of replica-list reads, of statement executions
(`none` = success, `some msg` = error), and of hostname unresolves. -/
structure Env where
  reads : List (Option Instance)
  readLists : List (Option (List Instance))
  execs : List (Option GoErr)
  unresolves : List (Option (InstanceKey × Bool))
deriving DecidableEq, Repr, Inhabited

/-- Operation monad: read-only config, threaded scripts, and the ordered
trace of statements issued against instances. -/
def M (α : Type) : Type := Config → Env → α × Env × List Stmt

/-- Monadic unit for `M`. -/
def M.pure {α : Type} (a : α) : M α := fun _ e => (a, e, [])

/-- Monadic bind for `M`: thread the scripts, concatenate the traces. -/
def M.bind {α β : Type} (m : M α) (k : α → M β) : M β := fun cfg e =>
  let p := m cfg e
  let q := k p.1 cfg p.2.1
  (q.1, q.2.1, p.2.2 ++ q.2.2)

instance : Monad M where
  pure := M.pure
  bind := M.bind

/-- Unfolding lemma for `pure` on `M`. -/
@[simp] theorem M_pure_apply {α : Type} (a : α) (cfg : Config) (e : Env) :
    (pure a : M α) cfg e = (a, e, []) := rfl

/-- Unfolding lemma for `bind` on `M`. -/
@[simp] theorem M_bind_apply {α β : Type} (m : M α) (k : α → M β) (cfg : Config) (e : Env) :
    (m >>= k) cfg e =
      ((k (m cfg e).1 cfg (m cfg e).2.1).1,
       (k (m cfg e).1 cfg (m cfg e).2.1).2.1,
       (m cfg e).2.2 ++ (k (m cfg e).1 cfg (m cfg e).2.1).2.2) := rfl

/-- Scripted model of the external `ReadTopologyInstance`: consume the next
snapshot from the read script; `none` models a failed read, and script
exhaustion also reads as a failure. -/
def ReadTopologyInstance (_instanceKey : InstanceKey) : M (Option Instance) := fun _ e =>
  match e.reads with
  | [] => (none, e, [])
  | r :: rest => (r, { e with reads := rest }, [])

/-- Scripted model of the external `ReadTopologyInstances` (bulk read). -/
def ReadTopologyInstances (_keys : List InstanceKey) : M (Option (List Instance)) := fun _ e =>
  match e.readLists with
  | [] => (none, e, [])
  | r :: rest => (r, { e with readLists := rest }, [])

/-- Scripted model of the external `ReadReplicaInstances` (backend fallback). -/
def ReadReplicaInstances (_masterKey : InstanceKey) : M (Option (List Instance)) := fun _ e =>
  match e.readLists with
  | [] => (none, e, [])
  | r :: rest => (r, { e with readLists := rest }, [])

/-- Scripted model of `ExecInstance`: consume the next execution outcome and
record the issued statement; an exhausted script models a failed connection
(no statement reaches the server). -/
def ExecInstance (_instanceKey : InstanceKey) (stmt : Stmt) : M (Option GoErr) := fun _ e =>
  match e.execs with
  | [] => (some "cannot connect", e, [])
  | r :: rest => (r, { e with execs := rest }, [stmt])

/-- Scripted model of the external `UnresolveHostname`; `none` models a
resolving error. -/
def UnresolveHostname (_masterKey : InstanceKey) : M (Option (InstanceKey × Bool)) := fun _ e =>
  match e.unresolves with
  | [] => (none, e, [])
  | r :: rest => (r, { e with unresolves := rest }, [])

/-- Read the process configuration (`config.Config` / `RuntimeCLIFlags`). -/
def getConfig : M Config := fun cfg e => (cfg, e, [])

/-- The external `AuditOperation` sink is fire-and-forget and issues no
statement against the instance; modelled as a no-op. -/
def AuditOperation (_topic : String) (_instanceKey : InstanceKey) (_message : String) : M Unit :=
  M.pure ()

/-- The backend bookkeeping sink `WriteMasterPositionEquivalence`; it touches
only the orchestrator backend, not the instance, so it is modelled as a
no-op. -/
def WriteMasterPositionEquivalence (_oldMaster : InstanceKey) (_oldCoords : BinlogCoordinates)
    (_newMaster : InstanceKey) (_newCoords : BinlogCoordinates) : M Unit :=
  M.pure ()

/-- The backend cache sink `ResetInstanceRelaylogCoordinatesHistory`; modelled
as a no-op for the same reason. -/
def ResetInstanceRelaylogCoordinatesHistory (_instanceKey : InstanceKey) : M Unit :=
  M.pure ()

/-- The distinguished dry-run error message, as produced by the source's
`fmt.Errorf("noop: aborting <op> operation on %+v; ...")`. -/
def noopError (operation : String) : GoErr :=
  "noop: aborting " ++ operation ++ " operation; signalling error but nothing went wrong."

/-- Recognizer for the distinguished dry-run error. -/
def isNoopError (e : GoErr) : Bool := "noop: aborting".isPrefixOf e

/-- Result of a trailing `return ReadTopologyInstance(...)`. -/
def readResult : Option Instance → GoRes
  | none => (none, some "read error")
  | some inst => (some inst, none)

/-- The matched prefix of MySQL bug 83713's error signature (source constant
`Error1201CouldnotInitializeMasterInfoStructure`). -/
def Error1201CouldnotInitializeMasterInfoStructure : String := "Error 1201:"

/-- Model of Go's `strings.Contains`. -/
def strContains (hay needle : String) : Bool :=
  decide (List.IsInfix needle.toList hay.toList)

/-- The source's `ReplicationNotRunningError`. -/
def ReplicationNotRunningError : GoErr := "Replication not running"

/-! ## Replication Thread Controller and semi-sync operations -/

/-- `SetSemiSyncMaster`: read, set the master-side semi-sync variable
(new-version name when the plugin is new), re-read. No dry-run check. -/
def SetSemiSyncMaster (instanceKey : InstanceKey) (enableMaster : Bool) : M GoRes := do
  let r ← ReadTopologyInstance instanceKey
  match r with
  | none => pure (none, some "read error")
  | some inst => do
    let e ← ExecInstance instanceKey
      (.set_semi_sync_master inst.SemiSyncMasterPluginNewVersion enableMaster)
    match e with
    | some msg => pure (some inst, some msg)
    | none => do
      let r2 ← ReadTopologyInstance instanceKey
      pure (readResult r2)

/-- `SetSemiSyncReplica`: read; if the flag already has the requested value,
return the snapshot unchanged; otherwise set the replica-side variable and,
only if the IO thread is running, bounce the IO thread (stop error ignored,
start error propagated), then re-read. No dry-run check. -/
def SetSemiSyncReplica (instanceKey : InstanceKey) (enableReplica : Bool) : M GoRes := do
  let r ← ReadTopologyInstance instanceKey
  match r with
  | none => pure (none, some "read error")
  | some inst =>
    if inst.SemiSyncReplicaEnabled == enableReplica then pure (some inst, none)
    else do
      let e ← ExecInstance instanceKey
        (.set_semi_sync_replica inst.SemiSyncReplicaPluginNewVersion enableReplica)
      match e with
      | some msg => pure (some inst, some msg)
      | none =>
        if inst.ReplicationIOThreadRuning then do
          let _ ← ExecInstance instanceKey .stop_slave_io_thread
          let e2 ← ExecInstance instanceKey .start_slave_io_thread
          match e2 with
          | some msg => pure (some inst, some msg)
          | none => do
            let r2 ← ReadTopologyInstance instanceKey
            pure (readResult r2)
        else do
          let r2 ← ReadTopologyInstance instanceKey
          pure (readResult r2)

/-- `RestartReplicationQuick`: bounce just the IO thread (stop, start),
failing on the first error. No dry-run check, no preconditions. -/
def RestartReplicationQuick (_inst : Instance) (instanceKey : InstanceKey) : M (Option GoErr) := do
  let e1 ← ExecInstance instanceKey .stop_slave_io_thread
  match e1 with
  | some msg => pure (some msg)
  | none => do
    let e2 ← ExecInstance instanceKey .start_slave_io_thread
    match e2 with
    | some msg => pure (some msg)
    | none => pure none

/-- Fold the MaxScale quirk over a `STOP SLAVE` outcome: the documented proxy
error text is swallowed as success when the instance is MaxScale. -/
def maxScaleStopQuirk (inst : Instance) : Option GoErr → Option GoErr
  | some msg =>
    if inst.isMaxScale && msg == "Error 1199: Slave connection is not running" then none
    else some msg
  | none => none

/-- `StopReplication`: read; not-a-replica precondition; `STOP SLAVE` with
the MaxScale quirk; re-read. No dry-run check. -/
def StopReplication (instanceKey : InstanceKey) : M GoRes := do
  let r ← ReadTopologyInstance instanceKey
  match r with
  | none => pure (none, some "read error")
  | some inst =>
    if !inst.IsReplica then pure (some inst, some "instance is not a replica")
    else do
      let e0 ← ExecInstance instanceKey .stop_slave
      match maxScaleStopQuirk inst e0 with
      | some msg => pure (some inst, some msg)
      | none => do
        let r2 ← ReadTopologyInstance instanceKey
        pure (readResult r2)

/-- Polling loop of `WaitForSQLThreadUpToDate` over the read script: return
the first snapshot whose SQL thread is up to date; a non-zero SQL delay is an
error; script exhaustion plays the role of the overall/staleness timers. -/
def waitForSQLThreadUpToDateGo :
    List (Option Instance) → (Option Instance × Option GoErr) × List (Option Instance)
  | [] => ((none, some "WaitForSQLThreadUpToDate timeout"), [])
  | r :: rest =>
    match r with
    | none => ((none, some "read error"), rest)
    | some inst =>
      if inst.SQLThreadUpToDate then ((some inst, none), rest)
      else if inst.SQLDelay != 0 then
        ((some inst, some "WaitForSQLThreadUpToDate: instance has SQL Delay"), rest)
      else waitForSQLThreadUpToDateGo rest

/-- `WaitForSQLThreadUpToDate` wrapped into the operation monad. -/
def WaitForSQLThreadUpToDate (_instanceKey : InstanceKey)
    (_overallTimeout _staleCoordinatesTimeout : Nat) : M GoRes := fun _ e =>
  let p := waitForSQLThreadUpToDateGo e.reads
  (p.1, { e with reads := p.2 }, [])

/-- `StopReplicationNicely`: read; threads-exist precondition; stop the IO
thread and force the SQL thread on; unless a non-zero configured delay, wait
for SQL-thread catch-up (rebinding the snapshot); `STOP SLAVE` with the
MaxScale quirk; re-read. No dry-run check. -/
def StopReplicationNicely (instanceKey : InstanceKey) (timeout : Nat) : M GoRes := do
  let r ← ReadTopologyInstance instanceKey
  match r with
  | none => pure (none, some "read error")
  | some inst =>
    if !inst.ReplicationThreadsExist then pure (some inst, some "instance is not a replica")
    else do
      let e1 ← ExecInstance instanceKey .stop_slave_io_thread
      match e1 with
      | some msg => pure (none, some ("StopReplicationNicely failed: " ++ msg))
      | none => do
        let e2 ← ExecInstance instanceKey .start_slave_sql_thread
        match e2 with
        | some msg => pure (none, some ("StopReplicationNicely failed: " ++ msg))
        | none => do
          let w ← if inst.SQLDelay == 0 then WaitForSQLThreadUpToDate instanceKey timeout 0
                  else pure (some inst, none)
          match w with
          | (winst, some msg) => pure (winst, some msg)
          | (winst, none) => do
            let inst2 := winst.getD inst
            let e0 ← ExecInstance instanceKey .stop_slave
            match maxScaleStopQuirk inst2 e0 with
            | some msg => pure (some inst2, some msg)
            | none => do
              let r2 ← ReadTopologyInstance instanceKey
              pure (readResult r2)

/-- Per-replica treatment inside `StopReplicas` (the body of each task run
through the Executor): with Nice and a non-MariaDB replica, a nice stop whose
result is discarded, followed by the plain stop; otherwise only the plain
stop. The plain stop's error is discarded, as in the source. -/
def stopReplicaTask (stopReplicationMethod : StopReplicationMethod) (timeout : Nat)
    (replica : Instance) : M (Option Instance) := do
  if stopReplicationMethod == .StopReplicationNice && !replica.IsMariaDB then do
    let _ ← StopReplicationNicely replica.Key timeout
    let p ← StopReplication replica.Key
    pure p.1
  else do
    let p ← StopReplication replica.Key
    pure p.1

/-- `StopReplicas`: with method None, return the input unchanged without
touching any replica; otherwise run one task per replica. The goroutine
fan-out joins on every task and each task touches a distinct instance, so it
is modelled sequentially with one scripted environment per replica; each
output pairs the refreshed snapshot with the statements issued to that
replica. -/
def StopReplicas (replicas : List Instance) (stopReplicationMethod : StopReplicationMethod)
    (timeout : Nat) (cfg : Config) (envs : List Env) : List (Option Instance × List Stmt) :=
  if stopReplicationMethod == .NoStopReplication then replicas.map (fun r => (some r, []))
  else (replicas.zip envs).map fun p =>
    let q := stopReplicaTask stopReplicationMethod timeout p.1 cfg p.2
    (q.1, q.2.2)

/-! ## C10: SetSemiSyncReplica idempotence -/

/-- C10: `SetSemiSyncReplica` is idempotent at the public interface: when the
snapshot's replica-side semi-sync flag already equals the requested value it
issues no statement at all (in particular no IO-thread bounce) and returns
that snapshot with no error; when the flag differs it issues the flag-set
statement, bounces the IO thread exactly when the IO thread is running, and
returns the re-read snapshot. -/
theorem C10_set_semi_sync_replica_idempotent :
    (∀ (cfg : Config) (env : Env) (inst : Instance) (rest : List (Option Instance))
        (enable : Bool),
        env.reads = some inst :: rest →
        inst.SemiSyncReplicaEnabled = enable →
        SetSemiSyncReplica inst.Key enable cfg env =
          ((some inst, none), { env with reads := rest }, []))
    ∧ (∀ (cfg : Config) (env : Env) (inst i2 : Instance) (r2 : List (Option Instance))
        (enable : Bool) (er : List (Option GoErr)),
        env.reads = some inst :: some i2 :: r2 →
        inst.SemiSyncReplicaEnabled = !enable →
        inst.ReplicationIOThreadRuning = false →
        env.execs = none :: er →
        SetSemiSyncReplica inst.Key enable cfg env =
          ((some i2, none), { env with reads := r2, execs := er },
            [.set_semi_sync_replica inst.SemiSyncReplicaPluginNewVersion enable]))
    ∧ (∀ (cfg : Config) (env : Env) (inst i2 : Instance) (r2 : List (Option Instance))
        (enable : Bool) (e2 : Option GoErr) (er : List (Option GoErr)),
        env.reads = some inst :: some i2 :: r2 →
        inst.SemiSyncReplicaEnabled = !enable →
        inst.ReplicationIOThreadRuning = true →
        env.execs = none :: e2 :: none :: er →
        SetSemiSyncReplica inst.Key enable cfg env =
          ((some i2, none), { env with reads := r2, execs := er },
            [.set_semi_sync_replica inst.SemiSyncReplicaPluginNewVersion enable,
             .stop_slave_io_thread, .start_slave_io_thread])) := by
  refine ⟨?_, ?_, ?_⟩
  · intro cfg env inst rest enable hreads hflag
    obtain ⟨reads, rls, execs, unres⟩ := env
    simp only at hreads
    subst hreads
    simp [SetSemiSyncReplica, ReadTopologyInstance, hflag, readResult]
  · intro cfg env inst i2 r2 enable er hreads hflag hior hexecs
    obtain ⟨reads, rls, execs, unres⟩ := env
    simp only at hreads hexecs
    subst hreads
    subst hexecs
    cases enable <;>
      simp_all [SetSemiSyncReplica, ReadTopologyInstance, ExecInstance, readResult]
  · intro cfg env inst i2 r2 enable e2 er hreads hflag hior hexecs
    obtain ⟨reads, rls, execs, unres⟩ := env
    simp only at hreads hexecs
    subst hreads
    subst hexecs
    cases enable <;>
      simp_all [SetSemiSyncReplica, ReadTopologyInstance, ExecInstance, readResult]

/-- Instance whose semi-sync replica flag is on, for the C10 witness. -/
def instC10 : Instance := { instDefault with SemiSyncReplicaEnabled := true }

/-- Environment for the C10 witness. -/
def envC10 : Env := ⟨[some instC10, some instDefault], [], [none], []⟩

/-- Baseline configuration: no dry-run, legacy semi-sync logic. -/
def cfgBase : Config := ⟨false, false, false, false⟩

/-- C10 witness: both the idempotent case and the flag-set case of
`C10_set_semi_sync_replica_idempotent` at concrete inputs. -/
theorem C10_set_semi_sync_replica_idempotent_witness :
    SetSemiSyncReplica instC10.Key true cfgBase envC10 =
      ((some instC10, none), { envC10 with reads := [some instDefault] }, [])
    ∧ SetSemiSyncReplica instC10.Key false cfgBase envC10 =
      ((some instDefault, none), { envC10 with reads := [], execs := [] },
        [.set_semi_sync_replica false false]) := by
  constructor
  · exact C10_set_semi_sync_replica_idempotent.1 cfgBase envC10 instC10 [some instDefault] true
      rfl rfl
  · exact C10_set_semi_sync_replica_idempotent.2.1 cfgBase envC10 instC10 instDefault [] false []
      rfl rfl rfl rfl

/-! ## C8: StopReplicas policy -/

/-- C8 counterexample: a MariaDB replica under method Nice. The claim says
the per-replica treatment depends only on the enum value and that Nice
performs the nice stop (IO thread stopped, SQL thread drained) followed by
the plain stop on each replica; for this MariaDB replica the task issues
only the single plain `STOP SLAVE` and never stops the IO thread. -/
theorem C8_counterexample :
    (stopReplicaTask .StopReplicationNice 0
        { instDefault with IsMariaDB := true } cfgBase
        ⟨[some { instDefault with IsMariaDB := true },
          some { instDefault with IsMariaDB := true }], [], [none], []⟩).2.2
      = [.stop_slave]
    ∧ Stmt.stop_slave_io_thread ∉
      (stopReplicaTask .StopReplicationNice 0
        { instDefault with IsMariaDB := true } cfgBase
        ⟨[some { instDefault with IsMariaDB := true },
          some { instDefault with IsMariaDB := true }], [], [none], []⟩).2.2 := by
  constructor
  · rfl
  · decide

/-- C8 amended: `StopReplicas` applies, per replica, the stop policy selected
by the `StopReplicationMethod` enum and the replica's dialect: None returns
the input unchanged and touches nothing; Nice performs the nice stop followed
by the plain stop only on non-MariaDB replicas, while MariaDB replicas get
only the plain stop; Plain performs only the plain stop. -/
theorem C8_stop_replicas_policy :
    (∀ (replicas : List Instance) (timeout : Nat) (cfg : Config) (envs : List Env),
        StopReplicas replicas .NoStopReplication timeout cfg envs =
          replicas.map (fun r => (some r, [])))
    ∧ (∀ (r : Instance) (timeout : Nat), r.IsMariaDB = false →
        stopReplicaTask .StopReplicationNice timeout r =
          (do
            let _ ← StopReplicationNicely r.Key timeout
            let p ← StopReplication r.Key
            pure p.1))
    ∧ (∀ (r : Instance) (timeout : Nat), r.IsMariaDB = true →
        stopReplicaTask .StopReplicationNice timeout r =
          (do
            let p ← StopReplication r.Key
            pure p.1))
    ∧ (∀ (r : Instance) (timeout : Nat),
        stopReplicaTask .StopReplicationNormal timeout r =
          (do
            let p ← StopReplication r.Key
            pure p.1)) := by
  refine ⟨?_, ?_, ?_, ?_⟩
  · intro replicas timeout cfg envs
    simp [StopReplicas]
  · intro r timeout h
    simp [stopReplicaTask, h]
  · intro r timeout h
    simp [stopReplicaTask, h]
  · intro r timeout
    simp [stopReplicaTask]

/-- C8 amended witness: the Nice-method conjuncts of
`C8_stop_replicas_policy` applied at concrete replicas. -/
theorem C8_stop_replicas_policy_witness :
    stopReplicaTask .StopReplicationNice 7 instDefault =
      (do
        let _ ← StopReplicationNicely instDefault.Key 7
        let p ← StopReplication instDefault.Key
        pure p.1)
    ∧ stopReplicaTask .StopReplicationNice 7 { instDefault with IsMariaDB := true } =
      (do
        let p ← StopReplication { instDefault with IsMariaDB := true }.Key
        pure p.1) :=
  ⟨C8_stop_replicas_policy.2.1 instDefault 7 rfl,
   C8_stop_replicas_policy.2.2.1 { instDefault with IsMariaDB := true } 7 rfl⟩

/-! ## Start paths, waits, master-change protocol, skip/recovery -/

/-- Modelled from the spec: the two thread states a post-start/post-stop
poll waits for. -/
inductive ReplicationThreadState where
  | running
  | stopped
deriving DecidableEq, Repr

/-- Modelled from the spec: `expectReplicationThreadsState` reads the thread
states fresh and is met when both threads report the expected state. -/
def replicationThreadsStateMet (inst : Instance) (expectedState : ReplicationThreadState) : Bool :=
  (inst.ReplicationIOThreadRuning == (expectedState == .running))
    && (inst.ReplicationSQLThreadRuning == (expectedState == .running))

/-- Polling loop of `waitForReplicationState` over the read script: a failed
poll iteration is ignored and the loop continues; the 1-second backoff budget
is abstracted as exhaustion of the script. -/
def waitForReplicationStateGo (expectedState : ReplicationThreadState) :
    List (Option Instance) → Bool × List (Option Instance)
  | [] => (false, [])
  | r :: rest =>
    match r with
    | some inst =>
      if replicationThreadsStateMet inst expectedState then (true, rest)
      else waitForReplicationStateGo expectedState rest
    | none => waitForReplicationStateGo expectedState rest

/-- `waitForReplicationState` wrapped into the operation monad; its result is
advisory and never an error. -/
def waitForReplicationState (_inst : Instance) (_instanceKey : InstanceKey)
    (expectedState : ReplicationThreadState) : M Bool := fun _ e =>
  let p := waitForReplicationStateGo expectedState e.reads
  (p.1, { e with reads := p.2 }, [])

/-- `MaybeDisableSemiSyncMaster`: disable the master-side semi-sync flag when
the replica has semi-sync priority > 0 and the flag is on. -/
def MaybeDisableSemiSyncMaster (replicaInstance : Instance) : M GoRes := do
  if replicaInstance.SemiSyncPriority > 0 && replicaInstance.SemiSyncMasterEnabled then
    SetSemiSyncMaster replicaInstance.Key false
  else
    pure (some replicaInstance, none)

/-- `maybeEnableSemiSyncReplicaLegacy`: enable semi-sync when priority > 0,
but never for a must-not-promote instance. -/
def maybeEnableSemiSyncReplicaLegacy (replicaInstance : Instance) : M GoRes := do
  if replicaInstance.SemiSyncPriority > 0 then
    SetSemiSyncReplica replicaInstance.Key
      (replicaInstance.PromotionRule != PromotionRule.MustNotPromoteRule)
  else
    pure (some replicaInstance, none)

/-- `AnalyzeSemiSyncReplicaTopology`: re-read the master, read its replicas
(falling back to the backend list on failure), classify, prioritize and
determine actions without applying them. The key list passed to the bulk
read comes from the master snapshot's replica map in the source; the
scripted bulk read ignores it. -/
def AnalyzeSemiSyncReplicaTopology (masterKey : InstanceKey)
    (includeNonReplicatingInstance : Option InstanceKey) (exactReplicaTopology : Bool) :
    M (Option Instance × List Instance × List (Instance × Bool) × Option GoErr) := do
  let rm ← ReadTopologyInstance masterKey
  match rm with
  | none => pure (none, [], [], some "read error")
  | some masterInstance => do
    let rl ← ReadTopologyInstances []
    let rl2 ← match rl with
      | some l => pure (some l)
      | none => ReadReplicaInstances masterKey
    match rl2 with
    | none => pure (none, [], [], some "read error")
    | some replicas =>
      let (possibleSemiSyncReplicas, asyncReplicas, _excludedReplicas) :=
        classifyAndPrioritizeReplicas replicas includeNonReplicatingInstance
      let actions := determineSemiSyncReplicaActions masterInstance possibleSemiSyncReplicas
        asyncReplicas exactReplicaTopology
      pure (some masterInstance, replicas, actions, none)

/-- First action in the analysis result whose replica key matches; models the
single matching iteration of the Go action-map range loop (keys are
distinct). -/
def findActionForKey (key : InstanceKey) : List (Instance × Bool) → Option (Instance × Bool)
  | [] => none
  | (r, enable) :: rest =>
    if r.Key.Equals (some key) then some (r, enable) else findActionForKey key rest

/-- `MaybeEnableSemiSyncReplica`: legacy behavior under the legacy config;
otherwise run the topology analysis and apply only the action addressed to
this replica, if any. -/
def MaybeEnableSemiSyncReplica (replicaInstance : Instance) : M GoRes := do
  let cfg ← getConfig
  if !cfg.EnforceExactSemiSyncReplicas && !cfg.RecoverLockedSemiSyncMaster then
    maybeEnableSemiSyncReplicaLegacy replicaInstance
  else do
    let a ← AnalyzeSemiSyncReplicaTopology replicaInstance.MasterKey (some replicaInstance.Key)
      cfg.EnforceExactSemiSyncReplicas
    match a.2.2.2 with
    | some msg => pure (some replicaInstance, some msg)
    | none =>
      match findActionForKey replicaInstance.Key a.2.2.1 with
      | some (replica, enable) => do
        let s ← SetSemiSyncReplica replica.Key enable
        match s.2 with
        | some _ => pure (none, some "cannot enable semi sync on replica")
        | none => pure (some replicaInstance, none)
      | none => pure (some replicaInstance, none)

/-- `StartReplication`: read; not-a-replica precondition; semi-sync master
disable and replica enable (in that order, before `START SLAVE`); start;
poll for both threads running; re-read and fail when replication still is
not running. No dry-run check. -/
def StartReplication (instanceKey : InstanceKey) : M GoRes := do
  let r ← ReadTopologyInstance instanceKey
  match r with
  | none => pure (none, some "read error")
  | some inst =>
    if !inst.IsReplica then pure (some inst, some "instance is not a replica")
    else do
      let d ← MaybeDisableSemiSyncMaster inst
      match d with
      | (di, some msg) => pure (di, some msg)
      | (di, none) => do
        let inst1 := di.getD inst
        let en ← MaybeEnableSemiSyncReplica inst1
        match en with
        | (ei, some msg) => pure (ei, some msg)
        | (ei, none) => do
          let inst2 := ei.getD inst1
          let e ← ExecInstance instanceKey .start_slave
          match e with
          | some msg => pure (some inst2, some msg)
          | none => do
            let _ ← waitForReplicationState inst2 instanceKey .running
            let r2 ← ReadTopologyInstance instanceKey
            match r2 with
            | none => pure (none, some "read error")
            | some i3 =>
              if !i3.ReplicaRunning then pure (some i3, some ReplicationNotRunningError)
              else pure (some i3, none)

/-- Polling loop of `WaitForExecBinlogCoordinatesToReach` over the read
script: behind the target keeps polling; equal returns an exact match;
past the target returns a non-exact match; script exhaustion plays the role
of `maxWait`. -/
def waitForExecBinlogCoordinatesToReachGo (coordinates : BinlogCoordinates) :
    List (Option Instance) → (Option Instance × Bool × Option GoErr) × List (Option Instance)
  | [] => ((none, false, some "WaitForExecBinlogCoordinatesToReach: reached maxWait"), [])
  | r :: rest =>
    match r with
    | none => ((none, false, some "read error"), rest)
    | some inst =>
      if inst.ExecBinlogCoordinates.SmallerThan coordinates then
        waitForExecBinlogCoordinatesToReachGo coordinates rest
      else if inst.ExecBinlogCoordinates.Equals coordinates then
        ((some inst, true, none), rest)
      else
        ((some inst, false, none), rest)

/-- `WaitForExecBinlogCoordinatesToReach` wrapped into the operation monad. -/
def WaitForExecBinlogCoordinatesToReach (_instanceKey : InstanceKey)
    (coordinates : BinlogCoordinates) (_maxWait : Nat) :
    M (Option Instance × Bool × Option GoErr) := fun _ e =>
  let p := waitForExecBinlogCoordinatesToReachGo coordinates e.reads
  (p.1, { e with reads := p.2 }, [])

/-- `StartReplicationUntilMasterCoordinates`: read; is-a-replica and
threads-stopped preconditions; semi-sync adjustments; `START SLAVE UNTIL`;
wait for the executed coordinates to reach the target, requiring an exact
match (overshoot is an error); then stop replication. No dry-run check. -/
def StartReplicationUntilMasterCoordinates (instanceKey : InstanceKey)
    (masterCoordinates : BinlogCoordinates) : M GoRes := do
  let r ← ReadTopologyInstance instanceKey
  match r with
  | none => pure (none, some "read error")
  | some inst =>
    if !inst.IsReplica then pure (some inst, some "instance is not a replica")
    else if !inst.ReplicationThreadsStopped then
      pure (some inst, some "replication threads are not stopped")
    else do
      let d ← MaybeDisableSemiSyncMaster inst
      match d with
      | (di, some msg) => pure (di, some msg)
      | (di, none) => do
        let inst1 := di.getD inst
        let en ← MaybeEnableSemiSyncReplica inst1
        match en with
        | (ei, some msg) => pure (ei, some msg)
        | (ei, none) => do
          let inst2 := ei.getD inst1
          let e ← ExecInstance instanceKey
            (.start_slave_until_master_log masterCoordinates.LogFile masterCoordinates.LogPos)
          match e with
          | some msg => pure (some inst2, some msg)
          | none => do
            let w ← WaitForExecBinlogCoordinatesToReach instanceKey masterCoordinates 0
            match w with
            | (wi, _, some msg) => pure (wi, some msg)
            | (wi, exactMatch, none) =>
              if !exactMatch then
                pure (wi, some "Start SLAVE UNTIL is past coordinates")
              else
                StopReplication instanceKey

/-- `workaroundBug83713`: reset replication, start then stop the IO thread,
reset again; every statement's error is only logged. -/
def workaroundBug83713 (_inst : Instance) (instanceKey : InstanceKey) : M Unit := do
  let _ ← ExecInstance instanceKey .reset_slave
  let _ ← ExecInstance instanceKey .start_slave_io_thread
  let _ ← ExecInstance instanceKey .stop_slave_io_thread
  let _ ← ExecInstance instanceKey .reset_slave
  pure ()

/-- Execution phase of `ChangeMasterTo` (source lines running the selected
statement): run it; on the Error-1201 signature on an Oracle-GTID instance,
apply `workaroundBug83713` and retry the same statement exactly once; any
other error propagates. -/
def changeMasterExecPhase (inst : Instance) (instanceKey : InstanceKey) (stmt : Stmt) :
    M (Option GoErr) := do
  let e1 ← ExecInstance instanceKey stmt
  match e1 with
  | none => pure none
  | some msg =>
    if inst.UsingOracleGTID
        && strContains msg Error1201CouldnotInitializeMasterInfoStructure then do
      workaroundBug83713 inst instanceKey
      ExecInstance instanceKey stmt
    else pure (some msg)

/-- `ChangeMasterTo`: read; threads-stopped precondition; hostname unresolve
unless skipped; dry-run check; branch selection (`changeMasterSelectStmt`);
execution with the single bug-83713 retry (`changeMasterExecPhase`); record
the position equivalence and clear the relay-log history; re-read. -/
def ChangeMasterTo (instanceKey masterKey : InstanceKey)
    (masterBinlogCoordinates : BinlogCoordinates) (skipUnresolve : Bool)
    (gtidHint : OperationGTIDHint) : M GoRes := do
  let r ← ReadTopologyInstance instanceKey
  match r with
  | none => pure (none, some "read error")
  | some inst =>
    if inst.ReplicationThreadsExist && !inst.ReplicationThreadsStopped then
      pure (some inst,
        some "ChangeMasterTo: Cannot change master because replication threads are not stopped")
    else do
      let u ← if skipUnresolve then pure (some (masterKey, false))
              else UnresolveHostname masterKey
      match u with
      | none => pure (some inst, some "resolve error")
      | some (changeToMasterKey, _) => do
        let cfg ← getConfig
        if cfg.Noop then pure (some inst, some (noopError "CHANGE MASTER TO"))
        else do
          let s := changeMasterSelectStmt inst changeToMasterKey masterBinlogCoordinates gtidHint
          let e ← changeMasterExecPhase inst instanceKey s.1
          match e with
          | some msg => pure (some inst, some msg)
          | none => do
            WriteMasterPositionEquivalence inst.MasterKey inst.ExecBinlogCoordinates
              changeToMasterKey masterBinlogCoordinates
            ResetInstanceRelaylogCoordinatesHistory instanceKey
            let r2 ← ReadTopologyInstance instanceKey
            pure (readResult r2)

/-- `ResetReplication`: read; threads-stopped precondition; dry-run check;
clear the master hostname; `RESET SLAVE ALL` with the bug-83713 workaround
retry (matched on the error text alone here); re-read. -/
def ResetReplication (instanceKey : InstanceKey) : M GoRes := do
  let r ← ReadTopologyInstance instanceKey
  match r with
  | none => pure (none, some "read error")
  | some inst =>
    if inst.ReplicationThreadsExist && !inst.ReplicationThreadsStopped then
      pure (some inst, some "Cannot reset replication because replication threads are not stopped")
    else do
      let cfg ← getConfig
      if cfg.Noop then pure (some inst, some (noopError "reset-replication"))
      else do
        let e1 ← ExecInstance instanceKey .change_master_to_master_host
        match e1 with
        | some msg => pure (some inst, some msg)
        | none => do
          let e2 ← ExecInstance instanceKey .reset_slave_50603_all
          let e3 ← match e2 with
            | some msg =>
              if strContains msg Error1201CouldnotInitializeMasterInfoStructure then do
                workaroundBug83713 inst instanceKey
                ExecInstance instanceKey .reset_slave_50603_all
              else pure (some msg)
            | none => pure (none : Option GoErr)
          match e3 with
          | some msg => pure (some inst, some msg)
          | none => do
            let r2 ← ReadTopologyInstance instanceKey
            pure (readResult r2)

/-- `ResetMaster`: read; threads-stopped precondition; dry-run check;
`RESET MASTER`; re-read. -/
def ResetMaster (instanceKey : InstanceKey) : M GoRes := do
  let r ← ReadTopologyInstance instanceKey
  match r with
  | none => pure (none, some "read error")
  | some inst =>
    if inst.ReplicationThreadsExist && !inst.ReplicationThreadsStopped then
      pure (some inst, some "Cannot reset master because replication threads are not stopped")
    else do
      let cfg ← getConfig
      if cfg.Noop then pure (some inst, some (noopError "reset-master"))
      else do
        let e ← ExecInstance instanceKey .reset_master
        match e with
        | some msg => pure (some inst, some msg)
        | none => do
          let r2 ← ReadTopologyInstance instanceKey
          pure (readResult r2)

/-- `EmptyCommitInstance`: open a transaction and commit it; modelled as one
scripted action against the instance. -/
def EmptyCommitInstance (instanceKey : InstanceKey) : M (Option GoErr) :=
  ExecInstance instanceKey .empty_commit

/-- `skipQueryClassic`: bump the skip-one-event counter. -/
def skipQueryClassic (inst : Instance) : M (Option GoErr) :=
  ExecInstance inst.Key .set_sql_slave_skip_counter

/-- `skipQueryOracleGtid`: compute the next required GTID (`NextGTID`, whose
failure or empty result is an error), force it as the next transaction
identifier, commit an empty transaction, restore automatic assignment. -/
def skipQueryOracleGtid (inst : Instance) : M (Option GoErr) := do
  match inst.NextGTID with
  | none => pure (some "NextGTID error")
  | some nextGtid =>
    if nextGtid == "" then pure (some "Empty NextGTID in skipQueryGtid")
    else do
      let e1 ← ExecInstance inst.Key (.set_gtid_next nextGtid)
      match e1 with
      | some msg => pure (some msg)
      | none => do
        let e2 ← EmptyCommitInstance inst.Key
        match e2 with
        | some msg => pure (some msg)
        | none => ExecInstance inst.Key .set_gtid_next_automatic

/-- `SkipQuery`: read; preconditions (is a replica, SQL thread stopped, an
SQL error recorded); dry-run check; dialect dispatch (Oracle GTID first,
then the MariaDB-GTID guidance error, else classic); on success restart
replication. -/
def SkipQuery (instanceKey : InstanceKey) : M GoRes := do
  let r ← ReadTopologyInstance instanceKey
  match r with
  | none => pure (none, some "read error")
  | some inst =>
    if !inst.IsReplica then pure (some inst, some "instance is not a replica")
    else if inst.ReplicationSQLThreadRuning then
      pure (some inst, some "Replication SQL thread is running")
    else if inst.LastSQLError == "" then
      pure (some inst, some "No SQL error")
    else do
      let cfg ← getConfig
      if cfg.Noop then pure (some inst, some (noopError "skip-query"))
      else do
        if inst.UsingOracleGTID then do
          let e ← skipQueryOracleGtid inst
          match e with
          | some msg => pure (some inst, some msg)
          | none => do
            AuditOperation "skip-query" instanceKey "Skipped one query"
            StartReplication instanceKey
        else if inst.UsingMariaDBGTID then
          pure (some inst,
            some "replicating with MariaDB GTID. To skip a query first disable GTID, then skip, then enable GTID again")
        else do
          let e ← skipQueryClassic inst
          match e with
          | some msg => pure (some inst, some msg)
          | none => do
            AuditOperation "skip-query" instanceKey "Skipped one query"
            StartReplication instanceKey

/-- `SetReadOnly`: read; dry-run check; when going writable with semi-sync
priority > 0, switch the master-side semi-sync flag on first; set
`read_only` (and best-effort `super_read_only` when configured); re-read;
when going read-only with semi-sync priority > 0, switch the master-side
flag off. -/
def SetReadOnly (instanceKey : InstanceKey) (readOnly : Bool) : M GoRes := do
  let r ← ReadTopologyInstance instanceKey
  match r with
  | none => pure (none, some "read error")
  | some inst => do
    let cfg ← getConfig
    if cfg.Noop then pure (some inst, some (noopError "set-read-only"))
    else do
      let pre ← if inst.SemiSyncPriority > 0 && !readOnly then SetSemiSyncMaster instanceKey true
                else pure (some inst, none)
      match pre.2 with
      | some msg => pure (some inst, some msg)
      | none => do
        let e ← ExecInstance instanceKey (.set_read_only readOnly)
        match e with
        | some msg => pure (some inst, some msg)
        | none => do
          let _ ← if cfg.UseSuperReadOnly then
                    ExecInstance instanceKey (.set_super_read_only readOnly)
                  else pure none
          let r2 ← ReadTopologyInstance instanceKey
          match r2 with
          | none => pure (none, some "read error")
          | some i2 => do
            let post ← if i2.SemiSyncPriority > 0 && readOnly then
                         SetSemiSyncMaster instanceKey false
                       else pure (some i2, none)
            match post.2 with
            | some msg => pure (some i2, some msg)
            | none => pure (some i2, none)

/-- `GetReplicationRestartPreserveStatements`: read; build the stop/inject/
start sequence preserving the current thread states. -/
def GetReplicationRestartPreserveStatements (instanceKey : InstanceKey)
    (injectedStatement : Option Stmt) : M (List Stmt × Option GoErr) := do
  let r ← ReadTopologyInstance instanceKey
  match r with
  | none => pure ([], some "read error")
  | some inst =>
    let s1 : List Stmt := if inst.ReplicationIOThreadRuning then [.stop_slave_io_thread] else []
    let s2 : List Stmt := if inst.ReplicationSQLThreadRuning then [.stop_slave_sql_thread] else []
    let s3 : List Stmt := match injectedStatement with
      | some s => [s]
      | none => []
    let s4 : List Stmt := if inst.ReplicationSQLThreadRuning then [.start_slave_sql_thread] else []
    let s5 : List Stmt := if inst.ReplicationIOThreadRuning then [.start_slave_io_thread] else []
    pure (s1 ++ s2 ++ s3 ++ s4 ++ s5, none)

/-- Execute a statement sequence, stopping at the first error (the loop of
`DelayReplication`). -/
def execAllStatements (instanceKey : InstanceKey) : List Stmt → M (Option GoErr)
  | [] => M.pure none
  | s :: rest => do
    let e ← ExecInstance instanceKey s
    match e with
    | some msg => pure (some msg)
    | none => execAllStatements instanceKey rest

/-- `DelayReplication`: negative seconds are rejected; read; build the
restart-preserving statement sequence around the delay change; execute it.
No dry-run check. -/
def DelayReplication (instanceKey : InstanceKey) (seconds : Int) : M (Option GoErr) := do
  if seconds < 0 then pure (some "invalid seconds; it should be greater or equal to 0")
  else do
    let r ← ReadTopologyInstance instanceKey
    match r with
    | none => pure (some "read error")
    | some _inst => do
      let g ← GetReplicationRestartPreserveStatements instanceKey
        (some (.change_master_to_master_delay seconds))
      match g.2 with
      | some msg => pure (some msg)
      | none => do
        let e ← execAllStatements instanceKey g.1
        match e with
        | some msg => pure (some msg)
        | none => do
          AuditOperation "delay-replication" instanceKey "set"
          pure none

/-! ## Coordinate order helper lemmas -/

/-- Coordinate equality is reflexive. -/
theorem BinlogCoordinates.equals_refl (a : BinlogCoordinates) : a.Equals a = true := by
  simp [BinlogCoordinates.Equals]

/-- The strict coordinate order is irreflexive. -/
theorem BinlogCoordinates.smallerThan_irrefl (a : BinlogCoordinates) :
    a.SmallerThan a = false := by
  simp [BinlogCoordinates.SmallerThan]

/-- The strict coordinate order is asymmetric. -/
theorem BinlogCoordinates.smallerThan_asymm (a b : BinlogCoordinates)
    (h : a.SmallerThan b = true) : b.SmallerThan a = false := by
  simp [BinlogCoordinates.SmallerThan] at h ⊢
  omega

/-- Strictly ordered coordinates are not equal. -/
theorem BinlogCoordinates.smallerThan_ne (a b : BinlogCoordinates)
    (h : a.SmallerThan b = true) : b.Equals a = false := by
  simp [BinlogCoordinates.SmallerThan] at h
  simp [BinlogCoordinates.Equals]
  omega

/-! ## C6: the bug-83713 workaround retry -/

/-- C6: in the execution phase of `ChangeMasterTo`, a successful statement is
issued once with no workaround; a failing statement whose error does not
carry the Error-1201 signature, or failing on an instance not using Oracle
GTID, propagates immediately with no workaround and no retry; and a failure
carrying the Error-1201 signature on an Oracle-GTID instance triggers the
workaround (reset replication, start then stop the IO thread, reset again)
followed by exactly one retry of the same statement, whose outcome is final
either way. -/
theorem C6_change_master_retry :
    (∀ (inst : Instance) (k : InstanceKey) (s : Stmt) (cfg : Config) (env : Env)
        (rest : List (Option GoErr)),
        env.execs = none :: rest →
        changeMasterExecPhase inst k s cfg env = (none, { env with execs := rest }, [s]))
    ∧ (∀ (inst : Instance) (k : InstanceKey) (s : Stmt) (cfg : Config) (env : Env)
        (msg : GoErr) (rest : List (Option GoErr)),
        env.execs = some msg :: rest →
        (inst.UsingOracleGTID = false
          ∨ strContains msg Error1201CouldnotInitializeMasterInfoStructure = false) →
        changeMasterExecPhase inst k s cfg env = (some msg, { env with execs := rest }, [s]))
    ∧ (∀ (inst : Instance) (k : InstanceKey) (s : Stmt) (cfg : Config) (env : Env)
        (msg : GoErr) (w1 w2 w3 w4 a2 : Option GoErr) (rest : List (Option GoErr)),
        env.execs = some msg :: w1 :: w2 :: w3 :: w4 :: a2 :: rest →
        inst.UsingOracleGTID = true →
        strContains msg Error1201CouldnotInitializeMasterInfoStructure = true →
        changeMasterExecPhase inst k s cfg env =
          (a2, { env with execs := rest },
            [s, .reset_slave, .start_slave_io_thread, .stop_slave_io_thread, .reset_slave, s])) := by
  refine ⟨?_, ?_, ?_⟩
  · intro inst k s cfg env rest hexecs
    obtain ⟨reads, rls, execs, unres⟩ := env
    simp only at hexecs
    subst hexecs
    simp [changeMasterExecPhase, ExecInstance]
  · intro inst k s cfg env msg rest hexecs hside
    obtain ⟨reads, rls, execs, unres⟩ := env
    simp only at hexecs
    subst hexecs
    rcases hside with hside | hside <;>
      simp [changeMasterExecPhase, ExecInstance, hside]
  · intro inst k s cfg env msg w1 w2 w3 w4 a2 rest hexecs horacle h1201
    obtain ⟨reads, rls, execs, unres⟩ := env
    simp only at hexecs
    subst hexecs
    simp [changeMasterExecPhase, ExecInstance, workaroundBug83713, horacle, h1201]

/-- Oracle-GTID instance for the C6 witness. -/
def instC6 : Instance := { instDefault with UsingOracleGTID := true }

/-- C6 witness: all three conjuncts of `C6_change_master_retry` at concrete
inputs: success, a non-matching error, and the Error-1201 retry whose second
attempt succeeds. -/
theorem C6_change_master_retry_witness :
    changeMasterExecPhase instC6 instC6.Key .reset_master cfgBase ⟨[], [], [none], []⟩ =
      (none, ⟨[], [], [], []⟩, [.reset_master])
    ∧ changeMasterExecPhase instC6 instC6.Key .reset_master cfgBase
        ⟨[], [], [some "Error 1045: denied"], []⟩ =
      (some "Error 1045: denied", ⟨[], [], [], []⟩, [.reset_master])
    ∧ changeMasterExecPhase instC6 instC6.Key .reset_master cfgBase
        ⟨[], [], [some "Error 1201: could not initialize", none, none, none, none, none], []⟩ =
      (none, ⟨[], [], [], []⟩,
        [.reset_master, .reset_slave, .start_slave_io_thread, .stop_slave_io_thread,
         .reset_slave, .reset_master]) := by
  refine ⟨?_, ?_, ?_⟩
  · exact C6_change_master_retry.1 instC6 instC6.Key .reset_master cfgBase
      ⟨[], [], [none], []⟩ [] rfl
  · exact C6_change_master_retry.2.1 instC6 instC6.Key .reset_master cfgBase
      ⟨[], [], [some "Error 1045: denied"], []⟩ "Error 1045: denied" []
      rfl (Or.inr (by decide))
  · exact C6_change_master_retry.2.2 instC6 instC6.Key .reset_master cfgBase
      ⟨[], [], [some "Error 1201: could not initialize", none, none, none, none, none], []⟩
      "Error 1201: could not initialize" none none none none none [] rfl rfl (by decide)

/-! ## C7: StartReplicationUntilMasterCoordinates -/

/-- C7: `StartReplicationUntilMasterCoordinates` rejects a non-replica, and a
replica whose threads are not stopped, before issuing any statement; when the
coordinate wait observes executed coordinates strictly past the target it
returns an error (after having only issued the bounded start); and on the
successful path it issues exactly `START SLAVE UNTIL` followed by
`STOP SLAVE` and returns the post-stop snapshot which, since the wait
matched the target exactly and the re-read reflects the stop, has stopped
threads and executed coordinates equal to the target. -/
theorem C7_start_replication_until_coordinates :
    (∀ (cfg : Config) (env : Env) (inst : Instance) (rest : List (Option Instance))
        (target : BinlogCoordinates),
        env.reads = some inst :: rest →
        inst.IsReplica = false →
        StartReplicationUntilMasterCoordinates inst.Key target cfg env =
          ((some inst, some "instance is not a replica"), { env with reads := rest }, []))
    ∧ (∀ (cfg : Config) (env : Env) (inst : Instance) (rest : List (Option Instance))
        (target : BinlogCoordinates),
        env.reads = some inst :: rest →
        inst.IsReplica = true →
        inst.ReplicationThreadsStopped = false →
        StartReplicationUntilMasterCoordinates inst.Key target cfg env =
          ((some inst, some "replication threads are not stopped"), { env with reads := rest }, []))
    ∧ (∀ (cfg : Config) (env : Env) (i0 iw : Instance) (rest : List (Option Instance))
        (target : BinlogCoordinates) (er : List (Option GoErr)),
        env.reads = some i0 :: some iw :: rest →
        i0.IsReplica = true → i0.ReplicationThreadsStopped = true →
        i0.SemiSyncPriority = 0 →
        cfg.EnforceExactSemiSyncReplicas = false → cfg.RecoverLockedSemiSyncMaster = false →
        env.execs = none :: er →
        target.SmallerThan iw.ExecBinlogCoordinates = true →
        StartReplicationUntilMasterCoordinates i0.Key target cfg env =
          ((some iw, some "Start SLAVE UNTIL is past coordinates"),
            { env with reads := rest, execs := er },
            [.start_slave_until_master_log target.LogFile target.LogPos]))
    ∧ (∀ (cfg : Config) (env : Env) (i0 iw i1 i2 : Instance) (rest : List (Option Instance))
        (target : BinlogCoordinates) (er : List (Option GoErr)),
        env.reads = some i0 :: some iw :: some i1 :: some i2 :: rest →
        i0.IsReplica = true → i0.ReplicationThreadsStopped = true →
        i0.SemiSyncPriority = 0 →
        cfg.EnforceExactSemiSyncReplicas = false → cfg.RecoverLockedSemiSyncMaster = false →
        env.execs = none :: none :: er →
        iw.ExecBinlogCoordinates = target →
        i1.IsReplica = true →
        i2.ReplicationThreadsStopped = true →
        i2.ExecBinlogCoordinates = iw.ExecBinlogCoordinates →
        StartReplicationUntilMasterCoordinates i0.Key target cfg env =
          ((some i2, none), { env with reads := rest, execs := er },
            [.start_slave_until_master_log target.LogFile target.LogPos, .stop_slave])
          ∧ i2.ReplicationThreadsStopped = true
          ∧ i2.ExecBinlogCoordinates.Equals target = true) := by
  refine ⟨?_, ?_, ?_, ?_⟩
  · intro cfg env inst rest target hreads hrep
    obtain ⟨reads, rls, execs, unres⟩ := env
    simp only at hreads
    subst hreads
    simp [StartReplicationUntilMasterCoordinates, ReadTopologyInstance, hrep]
  · intro cfg env inst rest target hreads hrep hstopped
    obtain ⟨reads, rls, execs, unres⟩ := env
    simp only at hreads
    subst hreads
    simp [StartReplicationUntilMasterCoordinates, ReadTopologyInstance, hrep, hstopped]
  · intro cfg env i0 iw rest target er hreads hrep hstopped hprio henf hrec hexecs hover
    obtain ⟨reads, rls, execs, unres⟩ := env
    simp only at hreads hexecs
    subst hreads
    subst hexecs
    have h1 : iw.ExecBinlogCoordinates.SmallerThan target = false :=
      BinlogCoordinates.smallerThan_asymm _ _ hover
    have h2 : iw.ExecBinlogCoordinates.Equals target = false :=
      BinlogCoordinates.smallerThan_ne _ _ hover
    simp [StartReplicationUntilMasterCoordinates, ReadTopologyInstance, ExecInstance,
      MaybeDisableSemiSyncMaster, MaybeEnableSemiSyncReplica, maybeEnableSemiSyncReplicaLegacy,
      getConfig, WaitForExecBinlogCoordinatesToReach, waitForExecBinlogCoordinatesToReachGo,
      hrep, hstopped, hprio, henf, hrec, h1, h2]
  · intro cfg env i0 iw i1 i2 rest target er hreads hrep hstopped hprio henf hrec hexecs
      hexact hrep1 hstopped2 hcoords2
    obtain ⟨reads, rls, execs, unres⟩ := env
    simp only at hreads hexecs
    subst hreads
    subst hexecs
    have h1 : iw.ExecBinlogCoordinates.SmallerThan target = false := by
      rw [hexact]; exact BinlogCoordinates.smallerThan_irrefl target
    have h2 : iw.ExecBinlogCoordinates.Equals target = true := by
      rw [hexact]; exact BinlogCoordinates.equals_refl target
    have h3 : i2.ExecBinlogCoordinates.Equals target = true := by
      rw [hcoords2, hexact]; exact BinlogCoordinates.equals_refl target
    refine ⟨?_, hstopped2, h3⟩
    simp [StartReplicationUntilMasterCoordinates, ReadTopologyInstance, ExecInstance,
      MaybeDisableSemiSyncMaster, MaybeEnableSemiSyncReplica, maybeEnableSemiSyncReplicaLegacy,
      getConfig, WaitForExecBinlogCoordinatesToReach, waitForExecBinlogCoordinatesToReachGo,
      StopReplication, maxScaleStopQuirk, readResult,
      hrep, hstopped, hprio, henf, hrec, h1, h2, hrep1]

/-- Non-replica instance for the C7 witness. -/
def instC7nr : Instance := { instDefault with IsReplica := false }

/-- Replica with running threads for the C7 witness. -/
def instC7run : Instance := { instDefault with ReplicationThreadsStopped := false }

/-- Snapshot observed past the target (overshoot) for the C7 witness. -/
def instC7over : Instance := { instDefault with ExecBinlogCoordinates := ⟨5, 300⟩ }

/-- Snapshot exactly at the target for the C7 witness. -/
def instC7at : Instance := { instDefault with ExecBinlogCoordinates := ⟨5, 200⟩ }

/-- C7 witness: all four conjuncts of
`C7_start_replication_until_coordinates` at concrete scenarios. -/
theorem C7_start_replication_until_coordinates_witness :
    StartReplicationUntilMasterCoordinates instC7nr.Key ⟨5, 200⟩ cfgBase
        ⟨[some instC7nr], [], [], []⟩ =
      ((some instC7nr, some "instance is not a replica"), ⟨[], [], [], []⟩, [])
    ∧ StartReplicationUntilMasterCoordinates instC7run.Key ⟨5, 200⟩ cfgBase
        ⟨[some instC7run], [], [], []⟩ =
      ((some instC7run, some "replication threads are not stopped"), ⟨[], [], [], []⟩, [])
    ∧ StartReplicationUntilMasterCoordinates instDefault.Key ⟨5, 200⟩ cfgBase
        ⟨[some instDefault, some instC7over], [], [none], []⟩ =
      ((some instC7over, some "Start SLAVE UNTIL is past coordinates"), ⟨[], [], [], []⟩,
        [.start_slave_until_master_log 5 200])
    ∧ (StartReplicationUntilMasterCoordinates instDefault.Key ⟨5, 200⟩ cfgBase
        ⟨[some instDefault, some instC7at, some instDefault, some instC7at], [],
          [none, none], []⟩ =
      ((some instC7at, none), ⟨[], [], [], []⟩,
        [.start_slave_until_master_log 5 200, .stop_slave])
      ∧ instC7at.ReplicationThreadsStopped = true
      ∧ instC7at.ExecBinlogCoordinates.Equals ⟨5, 200⟩ = true) := by
  refine ⟨?_, ?_, ?_, ?_⟩
  · exact C7_start_replication_until_coordinates.1 cfgBase ⟨[some instC7nr], [], [], []⟩
      instC7nr [] ⟨5, 200⟩ rfl (by decide)
  · exact C7_start_replication_until_coordinates.2.1 cfgBase ⟨[some instC7run], [], [], []⟩
      instC7run [] ⟨5, 200⟩ rfl (by decide) (by decide)
  · exact C7_start_replication_until_coordinates.2.2.1 cfgBase
      ⟨[some instDefault, some instC7over], [], [none], []⟩ instDefault instC7over []
      ⟨5, 200⟩ [] rfl (by decide) (by decide) (by decide) (by decide) (by decide) rfl (by decide)
  · exact C7_start_replication_until_coordinates.2.2.2 cfgBase
      ⟨[some instDefault, some instC7at, some instDefault, some instC7at], [], [none, none], []⟩
      instDefault instC7at instDefault instC7at [] ⟨5, 200⟩ [] rfl (by decide) (by decide)
      (by decide) (by decide) (by decide) rfl (by decide) (by decide) (by decide) (by decide)

/-! ## C9: SkipQuery -/

/-- C9: `SkipQuery` errors without performing any skip when the instance is
not a replica, when the replication SQL thread is running, or when no SQL
error is recorded; a MariaDB-GTID replica (not using Oracle GTID) gets the
guidance error with no statement issued; otherwise it dispatches by dialect
(Oracle GTID: force the next required GTID, commit an empty transaction,
restore automatic assignment; classic: the skip-one-event counter statement)
and then restarts replication. -/
theorem C9_skip_query :
    (∀ (cfg : Config) (env : Env) (inst : Instance) (rest : List (Option Instance)),
        env.reads = some inst :: rest →
        inst.IsReplica = false →
        SkipQuery inst.Key cfg env =
          ((some inst, some "instance is not a replica"), { env with reads := rest }, []))
    ∧ (∀ (cfg : Config) (env : Env) (inst : Instance) (rest : List (Option Instance)),
        env.reads = some inst :: rest →
        inst.IsReplica = true →
        inst.ReplicationSQLThreadRuning = true →
        SkipQuery inst.Key cfg env =
          ((some inst, some "Replication SQL thread is running"), { env with reads := rest }, []))
    ∧ (∀ (cfg : Config) (env : Env) (inst : Instance) (rest : List (Option Instance)),
        env.reads = some inst :: rest →
        inst.IsReplica = true →
        inst.ReplicationSQLThreadRuning = false →
        inst.LastSQLError = "" →
        SkipQuery inst.Key cfg env =
          ((some inst, some "No SQL error"), { env with reads := rest }, []))
    ∧ (∀ (cfg : Config) (env : Env) (inst : Instance) (rest : List (Option Instance)),
        env.reads = some inst :: rest →
        inst.IsReplica = true →
        inst.ReplicationSQLThreadRuning = false →
        (inst.LastSQLError == "") = false →
        cfg.Noop = false →
        inst.UsingOracleGTID = false →
        inst.UsingMariaDBGTID = true →
        SkipQuery inst.Key cfg env =
          ((some inst,
            some "replicating with MariaDB GTID. To skip a query first disable GTID, then skip, then enable GTID again"),
            { env with reads := rest }, []))
    ∧ (∀ (cfg : Config) (env : Env) (inst i1 iw ifin : Instance)
        (rrest : List (Option Instance)) (g : String) (er : List (Option GoErr)),
        env.reads = some inst :: some i1 :: some iw :: some ifin :: rrest →
        env.execs = none :: none :: none :: none :: er →
        inst.IsReplica = true →
        inst.ReplicationSQLThreadRuning = false →
        (inst.LastSQLError == "") = false →
        cfg.Noop = false →
        cfg.EnforceExactSemiSyncReplicas = false → cfg.RecoverLockedSemiSyncMaster = false →
        inst.UsingOracleGTID = true →
        inst.NextGTID = some g →
        (g == "") = false →
        i1.IsReplica = true →
        i1.SemiSyncPriority = 0 →
        replicationThreadsStateMet iw .running = true →
        ifin.ReplicaRunning = true →
        SkipQuery inst.Key cfg env =
          ((some ifin, none), { env with reads := rrest, execs := er },
            [.set_gtid_next g, .empty_commit, .set_gtid_next_automatic, .start_slave]))
    ∧ (∀ (cfg : Config) (env : Env) (inst i1 iw ifin : Instance)
        (rrest : List (Option Instance)) (er : List (Option GoErr)),
        env.reads = some inst :: some i1 :: some iw :: some ifin :: rrest →
        env.execs = none :: none :: er →
        inst.IsReplica = true →
        inst.ReplicationSQLThreadRuning = false →
        (inst.LastSQLError == "") = false →
        cfg.Noop = false →
        cfg.EnforceExactSemiSyncReplicas = false → cfg.RecoverLockedSemiSyncMaster = false →
        inst.UsingOracleGTID = false →
        inst.UsingMariaDBGTID = false →
        i1.IsReplica = true →
        i1.SemiSyncPriority = 0 →
        replicationThreadsStateMet iw .running = true →
        ifin.ReplicaRunning = true →
        SkipQuery inst.Key cfg env =
          ((some ifin, none), { env with reads := rrest, execs := er },
            [.set_sql_slave_skip_counter, .start_slave])) := by
  refine ⟨?_, ?_, ?_, ?_, ?_, ?_⟩
  · intro cfg env inst rest hreads hrep
    obtain ⟨reads, rls, execs, unres⟩ := env
    simp only at hreads
    subst hreads
    simp [SkipQuery, ReadTopologyInstance, hrep]
  · intro cfg env inst rest hreads hrep hsqlrun
    obtain ⟨reads, rls, execs, unres⟩ := env
    simp only at hreads
    subst hreads
    simp [SkipQuery, ReadTopologyInstance, hrep, hsqlrun]
  · intro cfg env inst rest hreads hrep hsqlrun herr
    obtain ⟨reads, rls, execs, unres⟩ := env
    simp only at hreads
    subst hreads
    simp [SkipQuery, ReadTopologyInstance, hrep, hsqlrun, herr]
  · intro cfg env inst rest hreads hrep hsqlrun herr hnoop horacle hmaria
    obtain ⟨reads, rls, execs, unres⟩ := env
    simp only at hreads
    subst hreads
    have herrp : ¬ inst.LastSQLError = "" := by simpa using herr
    simp [SkipQuery, ReadTopologyInstance, getConfig, hrep, hsqlrun, herrp, hnoop, horacle,
      hmaria]
  · intro cfg env inst i1 iw ifin rrest g er hreads hexecs hrep hsqlrun herr hnoop henf hrec
      horacle hgtid hg hrep1 hprio1 hmet hfin
    obtain ⟨reads, rls, execs, unres⟩ := env
    simp only at hreads hexecs
    subst hreads
    subst hexecs
    have herrp : ¬ inst.LastSQLError = "" := by simpa using herr
    have hgp : ¬ g = "" := by simpa using hg
    simp [SkipQuery, ReadTopologyInstance, ExecInstance, getConfig, AuditOperation,
      skipQueryOracleGtid, EmptyCommitInstance, StartReplication, MaybeDisableSemiSyncMaster,
      MaybeEnableSemiSyncReplica, maybeEnableSemiSyncReplicaLegacy, waitForReplicationState,
      waitForReplicationStateGo, M.pure, readResult,
      hrep, hsqlrun, herrp, hnoop, henf, hrec, horacle, hgtid, hgp, hrep1, hprio1, hmet, hfin]
  · intro cfg env inst i1 iw ifin rrest er hreads hexecs hrep hsqlrun herr hnoop henf hrec
      horacle hmaria hrep1 hprio1 hmet hfin
    obtain ⟨reads, rls, execs, unres⟩ := env
    simp only at hreads hexecs
    subst hreads
    subst hexecs
    have herrp : ¬ inst.LastSQLError = "" := by simpa using herr
    simp [SkipQuery, ReadTopologyInstance, ExecInstance, getConfig, AuditOperation,
      skipQueryClassic, StartReplication, MaybeDisableSemiSyncMaster,
      MaybeEnableSemiSyncReplica, maybeEnableSemiSyncReplicaLegacy, waitForReplicationState,
      waitForReplicationStateGo, M.pure, readResult,
      hrep, hsqlrun, herrp, hnoop, henf, hrec, horacle, hmaria, hrep1, hprio1, hmet, hfin]

/-- Oracle-GTID replica with a recorded SQL error, for the C9 witness. -/
def instC9o : Instance :=
  { instDefault with
    UsingOracleGTID := true, LastSQLError := "Error 1062: duplicate entry",
    NextGTID := some "uuid:42" }

/-- Classic replica with a recorded SQL error, for the C9 witness. -/
def instC9c : Instance := { instDefault with LastSQLError := "Error 1062: duplicate entry" }

/-- MariaDB-GTID replica with a recorded SQL error, for the C9 witness. -/
def instC9m : Instance :=
  { instDefault with UsingMariaDBGTID := true, LastSQLError := "Error 1062: duplicate entry" }

/-- Snapshot with both replication threads reported running, for the post-
start poll in the C9 witness. -/
def instC9w : Instance :=
  { instDefault with ReplicationIOThreadRuning := true, ReplicationSQLThreadRuning := true }

/-- Final snapshot with replication running, for the C9 witness. -/
def instC9fin : Instance := { instDefault with ReplicaRunning := true }

/-- C9 witness: the guidance-error, Oracle-GTID and classic conjuncts of
`C9_skip_query` (and the no-SQL-error precondition) at concrete scenarios. -/
theorem C9_skip_query_witness :
    SkipQuery instDefault.Key cfgBase ⟨[some instDefault], [], [], []⟩ =
      ((some instDefault, some "No SQL error"), ⟨[], [], [], []⟩, [])
    ∧ SkipQuery instC9m.Key cfgBase ⟨[some instC9m], [], [], []⟩ =
      ((some instC9m,
        some "replicating with MariaDB GTID. To skip a query first disable GTID, then skip, then enable GTID again"),
        ⟨[], [], [], []⟩, [])
    ∧ SkipQuery instC9o.Key cfgBase
        ⟨[some instC9o, some instDefault, some instC9w, some instC9fin], [],
          [none, none, none, none], []⟩ =
      ((some instC9fin, none), ⟨[], [], [], []⟩,
        [.set_gtid_next "uuid:42", .empty_commit, .set_gtid_next_automatic, .start_slave])
    ∧ SkipQuery instC9c.Key cfgBase
        ⟨[some instC9c, some instDefault, some instC9w, some instC9fin], [],
          [none, none], []⟩ =
      ((some instC9fin, none), ⟨[], [], [], []⟩,
        [.set_sql_slave_skip_counter, .start_slave]) := by
  refine ⟨?_, ?_, ?_, ?_⟩
  · exact C9_skip_query.2.2.1 cfgBase ⟨[some instDefault], [], [], []⟩ instDefault []
      rfl (by decide) (by decide) (by decide)
  · exact C9_skip_query.2.2.2.1 cfgBase ⟨[some instC9m], [], [], []⟩ instC9m []
      rfl (by decide) (by decide) (by decide) (by decide) (by decide) (by decide)
  · exact C9_skip_query.2.2.2.2.1 cfgBase
      ⟨[some instC9o, some instDefault, some instC9w, some instC9fin], [],
        [none, none, none, none], []⟩
      instC9o instDefault instC9w instC9fin [] "uuid:42" []
      rfl rfl (by decide) (by decide) (by decide) (by decide) (by decide) (by decide)
      (by decide) (by rfl) (by decide) (by decide) (by decide) (by decide) (by decide)
  · exact C9_skip_query.2.2.2.2.2 cfgBase
      ⟨[some instC9c, some instDefault, some instC9w, some instC9fin], [], [none, none], []⟩
      instC9c instDefault instC9w instC9fin [] []
      rfl rfl (by decide) (by decide) (by decide) (by decide) (by decide) (by decide)
      (by decide) (by decide) (by decide) (by decide) (by decide) (by decide)

/-! ## C1: the dry-run (noop) flag -/

/-- C1 counterexample: `RestartReplicationQuick` invoked with the dry-run
flag set. The claim says every mutating operation, including
`RestartReplicationQuick`, short-circuits under the flag, issues no
state-changing statement and returns a distinguished noop error; this run
issues the IO-thread stop and start statements and returns no error at all. -/
theorem C1_counterexample :
    (RestartReplicationQuick instDefault instDefault.Key ⟨true, false, false, false⟩
        ⟨[], [], [none, none], []⟩).2.2
      = [.stop_slave_io_thread, .start_slave_io_thread]
    ∧ (RestartReplicationQuick instDefault instDefault.Key ⟨true, false, false, false⟩
        ⟨[], [], [none, none], []⟩).1 = none := by
  constructor <;> rfl

/-- C1 amended: with the dry-run flag set, `ChangeMasterTo`,
`ResetReplication`, `ResetMaster`, `SkipQuery` and `SetReadOnly`
short-circuit right after their precondition checks with the distinguished
noop error and an empty statement trace; but `RestartReplicationQuick`,
`StopReplication`, `StopReplicationNicely`, `SetSemiSyncMaster`,
`SetSemiSyncReplica`, `DelayReplication` and `StartReplication` never
consult the flag: with the flag set they still issue their state-changing
statements and return success. -/
theorem C1_noop_flag :
    (∀ (cfg : Config) (env : Env) (inst : Instance) (rest : List (Option Instance))
        (mk : InstanceKey) (c : BinlogCoordinates) (gtidHint : OperationGTIDHint),
        cfg.Noop = true →
        env.reads = some inst :: rest →
        (inst.ReplicationThreadsExist && !inst.ReplicationThreadsStopped) = false →
        ChangeMasterTo inst.Key mk c true gtidHint cfg env =
          ((some inst, some (noopError "CHANGE MASTER TO")), { env with reads := rest }, []))
    ∧ (∀ (cfg : Config) (env : Env) (inst : Instance) (rest : List (Option Instance)),
        cfg.Noop = true →
        env.reads = some inst :: rest →
        (inst.ReplicationThreadsExist && !inst.ReplicationThreadsStopped) = false →
        ResetReplication inst.Key cfg env =
          ((some inst, some (noopError "reset-replication")), { env with reads := rest }, []))
    ∧ (∀ (cfg : Config) (env : Env) (inst : Instance) (rest : List (Option Instance)),
        cfg.Noop = true →
        env.reads = some inst :: rest →
        (inst.ReplicationThreadsExist && !inst.ReplicationThreadsStopped) = false →
        ResetMaster inst.Key cfg env =
          ((some inst, some (noopError "reset-master")), { env with reads := rest }, []))
    ∧ (∀ (cfg : Config) (env : Env) (inst : Instance) (rest : List (Option Instance)),
        cfg.Noop = true →
        env.reads = some inst :: rest →
        inst.IsReplica = true →
        inst.ReplicationSQLThreadRuning = false →
        (inst.LastSQLError == "") = false →
        SkipQuery inst.Key cfg env =
          ((some inst, some (noopError "skip-query")), { env with reads := rest }, []))
    ∧ (∀ (cfg : Config) (env : Env) (inst : Instance) (rest : List (Option Instance))
        (readOnly : Bool),
        cfg.Noop = true →
        env.reads = some inst :: rest →
        SetReadOnly inst.Key readOnly cfg env =
          ((some inst, some (noopError "set-read-only")), { env with reads := rest }, []))
    ∧ (∀ (cfg : Config) (env : Env) (inst : Instance) (er : List (Option GoErr)),
        cfg.Noop = true →
        env.execs = none :: none :: er →
        RestartReplicationQuick inst inst.Key cfg env =
          (none, { env with execs := er }, [.stop_slave_io_thread, .start_slave_io_thread]))
    ∧ (∀ (cfg : Config) (env : Env) (inst i2 : Instance) (r2 : List (Option Instance))
        (er : List (Option GoErr)),
        cfg.Noop = true →
        env.reads = some inst :: some i2 :: r2 →
        inst.IsReplica = true →
        env.execs = none :: er →
        StopReplication inst.Key cfg env =
          ((some i2, none), { env with reads := r2, execs := er }, [.stop_slave]))
    ∧ (∀ (cfg : Config) (env : Env) (inst iw i2 : Instance) (r2 : List (Option Instance))
        (er : List (Option GoErr)) (timeout : Nat),
        cfg.Noop = true →
        env.reads = some inst :: some iw :: some i2 :: r2 →
        inst.ReplicationThreadsExist = true →
        inst.SQLDelay = 0 →
        iw.SQLThreadUpToDate = true →
        env.execs = none :: none :: none :: er →
        StopReplicationNicely inst.Key timeout cfg env =
          ((some i2, none), { env with reads := r2, execs := er },
            [.stop_slave_io_thread, .start_slave_sql_thread, .stop_slave]))
    ∧ (∀ (cfg : Config) (env : Env) (inst i2 : Instance) (r2 : List (Option Instance))
        (er : List (Option GoErr)) (enableMaster : Bool),
        cfg.Noop = true →
        env.reads = some inst :: some i2 :: r2 →
        env.execs = none :: er →
        SetSemiSyncMaster inst.Key enableMaster cfg env =
          ((some i2, none), { env with reads := r2, execs := er },
            [.set_semi_sync_master inst.SemiSyncMasterPluginNewVersion enableMaster]))
    ∧ (∀ (cfg : Config) (env : Env) (inst i2 : Instance) (r2 : List (Option Instance))
        (er : List (Option GoErr)) (enableReplica : Bool),
        cfg.Noop = true →
        env.reads = some inst :: some i2 :: r2 →
        (inst.SemiSyncReplicaEnabled == enableReplica) = false →
        inst.ReplicationIOThreadRuning = false →
        env.execs = none :: er →
        SetSemiSyncReplica inst.Key enableReplica cfg env =
          ((some i2, none), { env with reads := r2, execs := er },
            [.set_semi_sync_replica inst.SemiSyncReplicaPluginNewVersion enableReplica]))
    ∧ (∀ (cfg : Config) (env : Env) (inst i2 : Instance) (r2 : List (Option Instance))
        (er : List (Option GoErr)) (seconds : Int),
        cfg.Noop = true →
        env.reads = some inst :: some i2 :: r2 →
        ¬ seconds < 0 →
        i2.ReplicationIOThreadRuning = false →
        i2.ReplicationSQLThreadRuning = false →
        env.execs = none :: er →
        DelayReplication inst.Key seconds cfg env =
          (none, { env with reads := r2, execs := er },
            [.change_master_to_master_delay seconds]))
    ∧ (∀ (cfg : Config) (env : Env) (inst iw ifin : Instance) (r2 : List (Option Instance))
        (er : List (Option GoErr)),
        cfg.Noop = true →
        env.reads = some inst :: some iw :: some ifin :: r2 →
        inst.IsReplica = true →
        inst.SemiSyncPriority = 0 →
        cfg.EnforceExactSemiSyncReplicas = false → cfg.RecoverLockedSemiSyncMaster = false →
        replicationThreadsStateMet iw .running = true →
        ifin.ReplicaRunning = true →
        env.execs = none :: er →
        StartReplication inst.Key cfg env =
          ((some ifin, none), { env with reads := r2, execs := er }, [.start_slave])) := by
  refine ⟨?_, ?_, ?_, ?_, ?_, ?_, ?_, ?_, ?_, ?_, ?_, ?_⟩
  · intro cfg env inst rest mk c gtidHint hnoop hreads hpre
    obtain ⟨reads, rls, execs, unres⟩ := env
    simp only at hreads
    subst hreads
    have hprep : ¬(inst.ReplicationThreadsExist = true ∧
        inst.ReplicationThreadsStopped = false) := by
      intro hc
      rw [hc.1, hc.2] at hpre
      simp at hpre
    simp [ChangeMasterTo, ReadTopologyInstance, getConfig, hnoop, hprep]
  · intro cfg env inst rest hnoop hreads hpre
    obtain ⟨reads, rls, execs, unres⟩ := env
    simp only at hreads
    subst hreads
    have hprep : ¬(inst.ReplicationThreadsExist = true ∧
        inst.ReplicationThreadsStopped = false) := by
      intro hc
      rw [hc.1, hc.2] at hpre
      simp at hpre
    simp [ResetReplication, ReadTopologyInstance, getConfig, hnoop, hprep]
  · intro cfg env inst rest hnoop hreads hpre
    obtain ⟨reads, rls, execs, unres⟩ := env
    simp only at hreads
    subst hreads
    have hprep : ¬(inst.ReplicationThreadsExist = true ∧
        inst.ReplicationThreadsStopped = false) := by
      intro hc
      rw [hc.1, hc.2] at hpre
      simp at hpre
    simp [ResetMaster, ReadTopologyInstance, getConfig, hnoop, hprep]
  · intro cfg env inst rest hnoop hreads hrep hsqlrun herr
    obtain ⟨reads, rls, execs, unres⟩ := env
    simp only at hreads
    subst hreads
    have herrp : ¬ inst.LastSQLError = "" := by simpa using herr
    simp [SkipQuery, ReadTopologyInstance, getConfig, hnoop, hrep, hsqlrun, herrp]
  · intro cfg env inst rest readOnly hnoop hreads
    obtain ⟨reads, rls, execs, unres⟩ := env
    simp only at hreads
    subst hreads
    simp [SetReadOnly, ReadTopologyInstance, getConfig, hnoop]
  · intro cfg env inst er hnoop hexecs
    obtain ⟨reads, rls, execs, unres⟩ := env
    simp only at hexecs
    subst hexecs
    simp [RestartReplicationQuick, ExecInstance]
  · intro cfg env inst i2 r2 er hnoop hreads hrep hexecs
    obtain ⟨reads, rls, execs, unres⟩ := env
    simp only at hreads hexecs
    subst hreads
    subst hexecs
    simp [StopReplication, ReadTopologyInstance, ExecInstance, maxScaleStopQuirk, readResult,
      hrep]
  · intro cfg env inst iw i2 r2 er timeout hnoop hreads hexist hdelay hw hexecs
    obtain ⟨reads, rls, execs, unres⟩ := env
    simp only at hreads hexecs
    subst hreads
    subst hexecs
    simp [StopReplicationNicely, ReadTopologyInstance, ExecInstance, WaitForSQLThreadUpToDate,
      waitForSQLThreadUpToDateGo, maxScaleStopQuirk, readResult, hexist, hdelay, hw]
  · intro cfg env inst i2 r2 er enableMaster hnoop hreads hexecs
    obtain ⟨reads, rls, execs, unres⟩ := env
    simp only at hreads hexecs
    subst hreads
    subst hexecs
    simp [SetSemiSyncMaster, ReadTopologyInstance, ExecInstance, readResult]
  · intro cfg env inst i2 r2 er enableReplica hnoop hreads hflag hior hexecs
    obtain ⟨reads, rls, execs, unres⟩ := env
    simp only at hreads hexecs
    subst hreads
    subst hexecs
    have hflagp : ¬ inst.SemiSyncReplicaEnabled = enableReplica := by simpa using hflag
    simp [SetSemiSyncReplica, ReadTopologyInstance, ExecInstance, readResult, hflagp, hior]
  · intro cfg env inst i2 r2 er seconds hnoop hreads hsec hior hsqlr hexecs
    obtain ⟨reads, rls, execs, unres⟩ := env
    simp only at hreads hexecs
    subst hreads
    subst hexecs
    simp [DelayReplication, GetReplicationRestartPreserveStatements, execAllStatements,
      ReadTopologyInstance, ExecInstance, AuditOperation, M.pure, hsec, hior, hsqlr]
  · intro cfg env inst iw ifin r2 er hnoop hreads hrep hprio henf hrec hmet hfin hexecs
    obtain ⟨reads, rls, execs, unres⟩ := env
    simp only at hreads hexecs
    subst hreads
    subst hexecs
    simp [StartReplication, ReadTopologyInstance, ExecInstance, MaybeDisableSemiSyncMaster,
      MaybeEnableSemiSyncReplica, maybeEnableSemiSyncReplicaLegacy, getConfig,
      waitForReplicationState, waitForReplicationStateGo, readResult,
      hrep, hprio, henf, hrec, hmet, hfin]

/-- Dry-run configuration (noop flag set, legacy semi-sync logic). -/
def cfgN : Config := ⟨true, false, false, false⟩

/-- Snapshot with the SQL thread up to date, for the C1 witness. -/
def instC1w : Instance := { instDefault with SQLThreadUpToDate := true }

/-- Snapshot with both threads running, for the C1 witness. -/
def instC1run : Instance :=
  { instDefault with ReplicationIOThreadRuning := true, ReplicationSQLThreadRuning := true }

/-- Snapshot with replication running, for the C1 witness. -/
def instC1fin : Instance := { instDefault with ReplicaRunning := true }

/-- C1 witness: every conjunct of `C1_noop_flag` applied at a concrete
dry-run scenario. -/
theorem C1_noop_flag_witness :
    ChangeMasterTo instDefault.Key ⟨"m2", 3307⟩ ⟨7, 120⟩ true .GTIDHintNeutral cfgN
        ⟨[some instDefault], [], [], []⟩ =
      ((some instDefault, some (noopError "CHANGE MASTER TO")), ⟨[], [], [], []⟩, [])
    ∧ ResetReplication instDefault.Key cfgN ⟨[some instDefault], [], [], []⟩ =
      ((some instDefault, some (noopError "reset-replication")), ⟨[], [], [], []⟩, [])
    ∧ ResetMaster instDefault.Key cfgN ⟨[some instDefault], [], [], []⟩ =
      ((some instDefault, some (noopError "reset-master")), ⟨[], [], [], []⟩, [])
    ∧ SkipQuery instC9c.Key cfgN ⟨[some instC9c], [], [], []⟩ =
      ((some instC9c, some (noopError "skip-query")), ⟨[], [], [], []⟩, [])
    ∧ SetReadOnly instDefault.Key true cfgN ⟨[some instDefault], [], [], []⟩ =
      ((some instDefault, some (noopError "set-read-only")), ⟨[], [], [], []⟩, [])
    ∧ RestartReplicationQuick instDefault instDefault.Key cfgN ⟨[], [], [none, none], []⟩ =
      (none, ⟨[], [], [], []⟩, [.stop_slave_io_thread, .start_slave_io_thread])
    ∧ StopReplication instDefault.Key cfgN
        ⟨[some instDefault, some instDefault], [], [none], []⟩ =
      ((some instDefault, none), ⟨[], [], [], []⟩, [.stop_slave])
    ∧ StopReplicationNicely instDefault.Key 9 cfgN
        ⟨[some instDefault, some instC1w, some instDefault], [], [none, none, none], []⟩ =
      ((some instDefault, none), ⟨[], [], [], []⟩,
        [.stop_slave_io_thread, .start_slave_sql_thread, .stop_slave])
    ∧ SetSemiSyncMaster instDefault.Key true cfgN
        ⟨[some instDefault, some instDefault], [], [none], []⟩ =
      ((some instDefault, none), ⟨[], [], [], []⟩, [.set_semi_sync_master false true])
    ∧ SetSemiSyncReplica instDefault.Key true cfgN
        ⟨[some instDefault, some instDefault], [], [none], []⟩ =
      ((some instDefault, none), ⟨[], [], [], []⟩, [.set_semi_sync_replica false true])
    ∧ DelayReplication instDefault.Key 5 cfgN
        ⟨[some instDefault, some instDefault], [], [none], []⟩ =
      (none, ⟨[], [], [], []⟩, [.change_master_to_master_delay 5])
    ∧ StartReplication instDefault.Key cfgN
        ⟨[some instDefault, some instC1run, some instC1fin], [], [none], []⟩ =
      ((some instC1fin, none), ⟨[], [], [], []⟩, [.start_slave]) := by
  refine ⟨?_, ?_, ?_, ?_, ?_, ?_, ?_, ?_, ?_, ?_, ?_, ?_⟩
  · exact C1_noop_flag.1 cfgN ⟨[some instDefault], [], [], []⟩ instDefault []
      ⟨"m2", 3307⟩ ⟨7, 120⟩ .GTIDHintNeutral rfl rfl (by decide)
  · exact C1_noop_flag.2.1 cfgN ⟨[some instDefault], [], [], []⟩ instDefault []
      rfl rfl (by decide)
  · exact C1_noop_flag.2.2.1 cfgN ⟨[some instDefault], [], [], []⟩ instDefault []
      rfl rfl (by decide)
  · exact C1_noop_flag.2.2.2.1 cfgN ⟨[some instC9c], [], [], []⟩ instC9c []
      rfl rfl (by decide) (by decide) (by decide)
  · exact C1_noop_flag.2.2.2.2.1 cfgN ⟨[some instDefault], [], [], []⟩ instDefault [] true
      rfl rfl
  · exact C1_noop_flag.2.2.2.2.2.1 cfgN ⟨[], [], [none, none], []⟩ instDefault [] rfl rfl
  · exact C1_noop_flag.2.2.2.2.2.2.1 cfgN
      ⟨[some instDefault, some instDefault], [], [none], []⟩ instDefault instDefault [] []
      rfl rfl (by decide) rfl
  · exact C1_noop_flag.2.2.2.2.2.2.2.1 cfgN
      ⟨[some instDefault, some instC1w, some instDefault], [], [none, none, none], []⟩
      instDefault instC1w instDefault [] [] 9 rfl rfl (by decide) (by decide) (by decide) rfl
  · exact C1_noop_flag.2.2.2.2.2.2.2.2.1 cfgN
      ⟨[some instDefault, some instDefault], [], [none], []⟩ instDefault instDefault [] [] true
      rfl rfl rfl
  · exact C1_noop_flag.2.2.2.2.2.2.2.2.2.1 cfgN
      ⟨[some instDefault, some instDefault], [], [none], []⟩ instDefault instDefault [] [] true
      rfl rfl (by decide) (by decide) rfl
  · exact C1_noop_flag.2.2.2.2.2.2.2.2.2.2.1 cfgN
      ⟨[some instDefault, some instDefault], [], [none], []⟩ instDefault instDefault [] [] 5
      rfl rfl (by decide) (by decide) (by decide) rfl
  · exact C1_noop_flag.2.2.2.2.2.2.2.2.2.2.2 cfgN
      ⟨[some instDefault, some instC1run, some instC1fin], [], [none], []⟩
      instDefault instC1run instC1fin [] [] rfl rfl (by decide) (by decide) (by decide)
      (by decide) (by decide) (by decide) rfl
